import Mathlib

/-!
# PCF8523 real-time-clock driver: register codec and control sequences

A shallow embedding of `src/src/pico_pcf8523.cpp` and `src/include/pico_pcf8523.hpp`.

* C `int` values are `Int`; the bitwise operators on `int` act on the 32-bit
  two's-complement representation (`toU32` / `toI32`).
* `uint8_t` values are `Nat` below 256; storing an `int` into a `uint8_t` is `toU8`.
* `int8_t` values are `Int` in `-128..127`; storing an `int` into an `int8_t` is `toI8`.
* `/` and `%` on `int` are `Int.tdiv` and `Int.tmod` (truncation toward zero).
-/

namespace PCF8523

/-! ## Machine integers -/

/-- The 32-bit two's-complement representation of a C `int`. -/
def toU32 (x : Int) : Nat := (x % 4294967296).toNat

/-- The C `int` represented by a 32-bit pattern. -/
def toI32 (n : Nat) : Int :=
  if n % 4294967296 < 2147483648 then ((n % 4294967296 : Nat) : Int)
  else ((n % 4294967296 : Nat) : Int) - 4294967296

/-- The operator `&` on two `int` operands. -/
def int_and (a b : Int) : Int := toI32 (toU32 a &&& toU32 b)

/-- The operator `|` on two `int` operands. -/
def int_or (a b : Int) : Int := toI32 (toU32 a ||| toU32 b)

/-- The operator `<<` on an `int` left operand. -/
def int_shl (a : Int) (k : Nat) : Int := toI32 (toU32 a <<< k)

/-- The operator `>>` on a non-negative `int` left operand (a promoted `uint8_t`). -/
def int_shr (a : Int) (k : Nat) : Int := toI32 (toU32 a >>> k)

/-- Conversion of an `int` to `uint8_t`. -/
def toU8 (x : Int) : Nat := (x % 256).toNat

/-- Conversion of an `int` to `int8_t`. -/
def toI8 (x : Int) : Int := (x + 128) % 256 - 128

/-! ## Data model (`pico_pcf8523.hpp`) -/

/-- Time record `pcf8523_time_t`; every field is an `int8_t`. -/
structure pcf8523_time_t where
  second : Int
  minute : Int
  hour : Int
  day : Int
  month : Int
  year : Int
  dotw : Int
deriving DecidableEq, Repr

/-- Alarm record `pcf8523_alarm_t`; every field is an `int8_t`, `-1` ignores the field. -/
structure pcf8523_alarm_t where
  minute : Int
  hour : Int
  day : Int
  dotw : Int
deriving DecidableEq, Repr

/-- Every field of a time record is a value of `int8_t`. -/
def pcf8523_time_t.isInt8 (t : pcf8523_time_t) : Prop :=
  (-128 ≤ t.second ∧ t.second ≤ 127) ∧ (-128 ≤ t.minute ∧ t.minute ≤ 127) ∧
  (-128 ≤ t.hour ∧ t.hour ≤ 127) ∧ (-128 ≤ t.day ∧ t.day ≤ 127) ∧
  (-128 ≤ t.month ∧ t.month ≤ 127) ∧ (-128 ≤ t.year ∧ t.year ≤ 127) ∧
  (-128 ≤ t.dotw ∧ t.dotw ≤ 127)

/-- Every field of an alarm record is a value of `int8_t`. -/
def pcf8523_alarm_t.isInt8 (a : pcf8523_alarm_t) : Prop :=
  (-128 ≤ a.minute ∧ a.minute ≤ 127) ∧ (-128 ≤ a.hour ∧ a.hour ≤ 127) ∧
  (-128 ≤ a.day ∧ a.day ≤ 127) ∧ (-128 ≤ a.dotw ∧ a.dotw ≤ 127)

/-! ## Register codec -/

/-- `PCF8523::RawToTime`: the seven raw bytes `raw_time[0..6]` decoded into a time record.
Each `uint8_t` operand is promoted to `int`, the tens digit is cast to `int8_t`, and the sum is
stored into the `int8_t` field. -/
def RawToTime (raw_time : List Nat) : pcf8523_time_t :=
  let r (i : Nat) : Int := ((raw_time.getD i 0 : Nat) : Int)
  { second := toI8 (10 * toI8 (int_shr (int_and (r 0) 0x70) 4) + toI8 (int_and (r 0) 0x0F))
    minute := toI8 (10 * toI8 (int_shr (int_and (r 1) 0x70) 4) + toI8 (int_and (r 1) 0x0F))
    hour := toI8 (10 * toI8 (int_shr (int_and (r 2) 0x30) 4) + toI8 (int_and (r 2) 0x0F))
    day := toI8 (10 * toI8 (int_shr (int_and (r 3) 0x30) 4) + toI8 (int_and (r 3) 0x0F))
    dotw := toI8 (int_and (r 4) 0x07)
    month := toI8 (10 * toI8 (int_shr (int_and (r 5) 0x10) 4) + toI8 (int_and (r 5) 0x0F))
    year := toI8 (10 * toI8 (int_shr (int_and (r 6) 0xF0) 4) + toI8 (int_and (r 6) 0x0F)) }

/-- `PCF8523::TimeToRaw`: the seven bytes `raw[0..6]` written for a time record. Each right-hand
side is computed in `int` and stored into a `uint8_t`. -/
def TimeToRaw (time : pcf8523_time_t) : List Nat :=
  [ toU8 (int_or (int_shl (Int.tdiv time.second 10) 4) (int_and (Int.tmod time.second 10) 0x0F)),
    toU8 (int_or (int_shl (Int.tdiv time.minute 10) 4) (int_and (Int.tmod time.minute 10) 0x0F)),
    toU8 (int_or (int_shl (Int.tdiv time.hour 10) 4) (int_and (Int.tmod time.hour 10) 0x0F)),
    toU8 (int_or (int_shl (Int.tdiv time.day 10) 4) (int_and (Int.tmod time.day 10) 0x0F)),
    toU8 (int_and time.dotw 0x07),
    toU8 (int_or (int_shl (Int.tdiv time.month 10) 4) (int_and (Int.tmod time.month 10) 0x0F)),
    toU8 (int_or (int_shl (Int.tdiv time.year 10) 4) (int_and (Int.tmod time.year 10) 0x0F)) ]

/-! ## Bus transport -/

/-- One call handed to the bus transport. -/
inductive Xfer where
  | write (src : List Nat) (nostop : Bool)
  | read (len : Nat)
deriving DecidableEq, Repr

/-- Modelled from the spec: the bus transport (`i2c_write_blocking` and `i2c_read_blocking` of the
board SDK, an external collaborator) with the peripheral behind it. The peripheral is a file of
8-bit registers with an auto-incrementing register pointer. `accept n` tells whether the `n`-th
upcoming call is carried out; a call that is not carried out transfers nothing and reports an
error instead of a byte count. `log` records every call issued, oldest first. -/
structure Bus where
  regs : Nat → Nat
  ptr : Nat
  accept : Nat → Bool
  log : List Xfer

/-- The error code reported by a transport call that is not carried out. -/
def PICO_ERROR_GENERIC : Int := -1

/-- The fixed 7-bit device address (`int i2c_address = 0x68`). -/
def i2c_address : Nat := 0x68

/-- The register file after the bytes `vs` are stored from register `a` upward. -/
def storeBytes (regs : Nat → Nat) (a : Nat) : List Nat → Nat → Nat
  | [] => regs
  | v :: vs => storeBytes (fun r => if r = a then v % 256 else regs r) (a + 1) vs

/-- The `len` bytes held in the registers from `a` upward. -/
def loadBytes (regs : Nat → Nat) (a : Nat) : Nat → List Nat
  | 0 => []
  | n + 1 => (regs a % 256) :: loadBytes regs (a + 1) n

/-- Modelled from the spec: `write(address, bytes, keep_control) -> bytes_written`. The first
byte of an accepted frame sets the register pointer, the following bytes are stored into
consecutive registers. Returns the byte count, or the error code when the call is rejected. -/
def i2c_write_blocking (bus : Bus) (_addr : Nat) (src : List Nat) (len : Nat) (nostop : Bool) :
    Bus × Int :=
  let log := bus.log ++ [Xfer.write (src.take len) nostop]
  let rest := fun n => bus.accept (n + 1)
  if bus.accept 0 then
    match src.take len with
    | [] => ({ bus with accept := rest, log := log }, 0)
    | a :: vs =>
      ({ regs := storeBytes bus.regs a vs, ptr := a + vs.length, accept := rest, log := log },
        (len : Int))
  else
    ({ bus with accept := rest, log := log }, PICO_ERROR_GENERIC)

/-- Modelled from the spec: `read(address, buffer, length) -> bytes_read`. An accepted call
delivers `len` bytes starting at the register pointer and advances the pointer; a rejected call
delivers nothing and returns the error code. -/
def i2c_read_blocking (bus : Bus) (_addr : Nat) (len : Nat) (_nostop : Bool) :
    Bus × List Nat × Int :=
  let log := bus.log ++ [Xfer.read len]
  let rest := fun n => bus.accept (n + 1)
  if bus.accept 0 then
    ({ bus with ptr := bus.ptr + len, accept := rest, log := log },
      loadBytes bus.regs bus.ptr len, (len : Int))
  else
    ({ bus with accept := rest, log := log }, [], PICO_ERROR_GENERIC)

/-! ## Register access layer -/

/-- `PCF8523::ReadControl`: `some v` when the function returns `true` with `*buffer = v`,
`none` when it returns `false` (the buffer is then left as it was). The result of the address
write is not checked. -/
def ReadControl (bus : Bus) (register_address : Nat) : Bus × Option Nat :=
  let (bus, _) := i2c_write_blocking bus i2c_address [register_address] 1 true
  let (bus, data, result) := i2c_read_blocking bus i2c_address 1 false
  if result = 1 then (bus, some (data.getD 0 0)) else (bus, none)

/-- `PCF8523::WriteControl`: writes the frame `{register_address, *buffer}`. -/
def WriteControl (bus : Bus) (buffer : Nat) (register_address : Nat) : Bus × Bool :=
  let buf := [register_address, buffer]
  let (bus, result) := i2c_write_blocking bus i2c_address buf 2 false
  (bus, decide (result = 2))

/-- `PCF8523::ReadRaw`: `some bytes` when the function returns `true` with the seven bytes in
`buffer`, `none` when it returns `false`. -/
def ReadRaw (bus : Bus) : Bus × Option (List Nat) :=
  let val := 0x03
  let (bus, _) := i2c_write_blocking bus i2c_address [val] 1 true
  let (bus, data, result) := i2c_read_blocking bus i2c_address 7 false
  if result = 7 then (bus, some data) else (bus, none)

/-! ## Device control logic -/

/-- `PCF8523::Reset`. -/
def Reset (bus : Bus) : Bus :=
  let buf := [0x00, 0x58]
  (i2c_write_blocking bus i2c_address buf 2 false).1

/-- `PCF8523::DebugControl`: the bus traffic of the diagnostic print (the text is dropped). -/
def DebugControl (bus : Bus) (register_address : Nat) : Bus :=
  (ReadControl bus register_address).1

/-- The loop `for (int i = 3; i < 10; ++i)` of `PCF8523::Write`, from index `i` with `n`
iterations left; results of the writes are not looked at. -/
def WriteLoop (current_val : List Nat) : Nat → Nat → Bus → Bus
  | 0, _, bus => bus
  | n + 1, i, bus =>
    let buf := [i, current_val.getD (i - 3) 0]
    let (bus, _) := i2c_write_blocking bus i2c_address buf 2 false
    WriteLoop current_val n (i + 1) bus

/-- `PCF8523::Write`. -/
def Write (bus : Bus) (time : pcf8523_time_t) : Bus × Bool :=
  let current_val := TimeToRaw time
  let bus := WriteLoop current_val 7 3 bus
  (bus, true)

/-- `PCF8523::Read`: takes the caller's record and returns it with the result. -/
def Read (bus : Bus) (time : pcf8523_time_t) : Bus × pcf8523_time_t × Bool :=
  match ReadRaw bus with
  | (bus, none) => (bus, time, false)
  | (bus, some raw_time) => (bus, RawToTime raw_time, true)

/-- `PCF8523::EnableClockout`. -/
def EnableClockout (bus : Bus) : Bus × Bool :=
  match ReadControl bus 0x0F with
  | (bus, some current_value) =>
    let current_value := toU8 (int_and current_value 0xC7)
    WriteControl bus current_value 0x0F
  | (bus, none) => (bus, false)

/-- `PCF8523::DisableClockout`. -/
def DisableClockout (bus : Bus) : Bus × Bool :=
  match ReadControl bus 0x0F with
  | (bus, some current_value) =>
    let current_value := toU8 (int_or current_value 0x38)
    WriteControl bus current_value 0x0F
  | (bus, none) => (bus, false)

/-- `PCF8523::DisableInterrupt`. -/
def DisableInterrupt (bus : Bus) : Bus × Bool :=
  match EnableClockout bus with
  | (bus, false) => (bus, false)
  | (bus, true) =>
    match ReadControl bus 0x00 with
    | (bus, some current_value) =>
      let current_value := toU8 (int_and current_value 0xF9)
      match WriteControl bus current_value 0x00 with
      | (bus, false) => (bus, false)
      | (bus, true) =>
        match ReadControl bus 0x01 with
        | (bus, none) => (bus, false)
        | (bus, some current_value) =>
          let current_value := toU8 (int_or current_value 0xF8)
          WriteControl bus current_value 0x01
    | (bus, none) => (bus, false)

/-- `PCF8523::EnableInterrupt`. -/
def EnableInterrupt (bus : Bus) : Bus × Bool :=
  match DisableClockout bus with
  | (bus, false) => (bus, false)
  | (bus, true) =>
    match ReadControl bus 0x00 with
    | (bus, some current_value) =>
      let current_value := toU8 (int_or current_value 0x02)
      match WriteControl bus current_value 0x00 with
      | (bus, false) => (bus, false)
      | (bus, true) =>
        match ReadControl bus 0x01 with
        | (bus, none) => (bus, false)
        | (bus, some current_value) =>
          let current_value := toU8 (int_or current_value 0x07)
          WriteControl bus current_value 0x01
    | (bus, none) => (bus, false)

/-- `PCF8523::AcknowledgeAlarm`. -/
def AcknowledgeAlarm (bus : Bus) : Bus × Bool :=
  match ReadControl bus 0x01 with
  | (bus, some current_value) =>
    let current_value := toU8 (int_and current_value 0xF7)
    WriteControl bus current_value 0x01
  | (bus, none) => (bus, false)

/-- `PCF8523::CheckAlarm`: `status0` is the content of the local `status[0]` before the read;
neither transport result is looked at. -/
def CheckAlarm (bus : Bus) (status0 : Nat) : Bus × Bool :=
  let val := 0x01
  let (bus, _) := i2c_write_blocking bus i2c_address [val] 1 true
  let (bus, data, _) := i2c_read_blocking bus i2c_address 1 false
  let status := data.getD 0 status0
  if int_and status 0x08 = 0x08 then (bus, true) else (bus, false)

/-- `PCF8523::SetAlarm`. -/
def SetAlarm (bus : Bus) (alarm : pcf8523_alarm_t) : Bus × Bool :=
  -- Minute_alarm register
  let buf1 :=
    if alarm.minute = -1 then 0x80
    else
      let b := toU8 (int_shl (Int.tdiv alarm.minute 10) 4)
      let b := toU8 (int_and b 0x7F)
      toU8 (int_or b (int_and (Int.tmod alarm.minute 10) 0x0F))
  let (bus, result) := i2c_write_blocking bus i2c_address [0x0A, buf1] 2 false
  if result ≠ 2 then (bus, false) else
  -- Hour_alarm register
  let buf1 :=
    if alarm.hour = -1 then 0x80
    else
      let b := toU8 (int_shl (Int.tdiv alarm.hour 10) 4)
      let b := toU8 (int_and b 0x7F)
      toU8 (int_or b (int_and (Int.tmod alarm.hour 10) 0x0F))
  let (bus, result) := i2c_write_blocking bus i2c_address [0x0B, buf1] 2 false
  if result ≠ 2 then (bus, false) else
  -- Day_alarm register
  let buf1 :=
    if alarm.day = -1 then 0x80
    else
      let b := toU8 (int_shl (Int.tdiv alarm.day 10) 4)
      let b := toU8 (int_and b 0x7F)
      toU8 (int_or b (int_and (Int.tmod alarm.day 10) 0x0F))
  let (bus, result) := i2c_write_blocking bus i2c_address [0x0C, buf1] 2 false
  if result ≠ 2 then (bus, false) else
  -- Weekday_alarm
  let buf1 :=
    if alarm.dotw = -1 then 0x80
    else
      let b := toU8 alarm.dotw
      toU8 (int_and b 0x07)
  let (bus, result) := i2c_write_blocking bus i2c_address [0x0D, buf1] 2 false
  if result ≠ 2 then (bus, false) else
  (bus, true)

/-- `PCF8523::EnableCountdownTimerA`. -/
def EnableCountdownTimerA (bus : Bus) : Bus × Bool :=
  match ReadControl bus 0x0F with
  | (bus, some current_value) =>
    let current_value := toU8 (int_or current_value 0x02)
    let current_value := toU8 (int_and current_value 0xFB)
    WriteControl bus current_value 0x0F
  | (bus, none) => (bus, false)

/-- `PCF8523::SetCountdownTimerASeconds`. -/
def SetCountdownTimerASeconds (bus : Bus) (seconds : Nat) : Bus × Bool :=
  match EnableCountdownTimerA bus with
  | (bus, false) => (bus, false)
  | (bus, true) =>
    let oneHertzClock := 0x02
    match WriteControl bus oneHertzClock 0x10 with
    | (bus, false) => (bus, false)
    | (bus, true) =>
      let buffer := seconds
      let (bus, success) := WriteControl bus buffer 0x11
      let bus := DebugControl bus 0x0F
      let bus := DebugControl bus 0x10
      let bus := DebugControl bus 0x11
      (bus, success)

/-- `PCF8523::DisableTimerA`. -/
def DisableTimerA (bus : Bus) : Bus × Bool :=
  match ReadControl bus 0x0F with
  | (bus, some current_value) =>
    let current_value := toU8 (int_and current_value 0xF9)
    WriteControl bus current_value 0x0F
  | (bus, none) => (bus, false)

/-- `PCF8523::CheckCountdownTimerA`. -/
def CheckCountdownTimerA (bus : Bus) : Bus × Bool :=
  match ReadControl bus 0x01 with
  | (bus, some current_value) => (bus, decide (int_and current_value 0x40 = 0x40))
  | (bus, none) => (bus, false)

/-- `PCF8523::AcknowledgeTimerA`. -/
def AcknowledgeTimerA (bus : Bus) : Bus × Bool :=
  match ReadControl bus 0x01 with
  | (bus, some current_value) =>
    let current_value := toU8 (int_and current_value 0xBF)
    WriteControl bus current_value 0x01
  | (bus, none) => (bus, false)

/-- `PCF8523::Init`: stores the bus handle, resets, and prints six registers. -/
def Init (bus : Bus) : Bus :=
  let bus := Reset bus
  let bus := DebugControl bus 0x00
  let bus := DebugControl bus 0x01
  let bus := DebugControl bus 0x02
  let bus := DebugControl bus 0x0F
  let bus := DebugControl bus 0x10
  DebugControl bus 0x12

/-! ## Vocabulary of the statements -/

/-- Every register holds an 8-bit value. -/
def Bus.wf (bus : Bus) : Prop := ∀ r, bus.regs r < 256

/-- The transport carries out every call. -/
def Bus.allAccepted (bus : Bus) : Prop := ∀ n, bus.accept n = true

/-- Packed BCD of a two-digit value: tens digit in the high nibble, units in the low nibble. -/
def bcd (v : Int) : Int := 16 * (v / 10) + v % 10

/-- The expression `((v / 10) << 4) | ((v % 10) & 0x0F)` of `TimeToRaw`, stored into a
`uint8_t`. -/
def encField (v : Int) : Nat :=
  toU8 (int_or (int_shl (Int.tdiv v 10) 4) (int_and (Int.tmod v 10) 0x0F))

/-- The expression `(10 * (int8_t) ((b & mask) >> 4)) + ((int8_t) (b & 0x0F))` of `RawToTime`,
stored into an `int8_t`. -/
def decField (mask : Int) (b : Nat) : Int :=
  toI8 (10 * toI8 (int_shr (int_and (b : Int) mask) 4) + toI8 (int_and (b : Int) 0x0F))

/-- The value `SetAlarm` places in `buf[1]` for a minute, hour or day field: `0x80` for the
sentinel, otherwise the three statements of the `else` branch. -/
def alarmBcdByte (v : Int) : Nat :=
  if v = -1 then 0x80
  else
    let b := toU8 (int_shl (Int.tdiv v 10) 4)
    let b := toU8 (int_and b 0x7F)
    toU8 (int_or b (int_and (Int.tmod v 10) 0x0F))

/-- The value `SetAlarm` places in `buf[1]` for the dotw field. -/
def alarmDotwByte (v : Int) : Nat :=
  if v = -1 then 0x80
  else
    let b := toU8 v
    toU8 (int_and b 0x07)

/-- The four frames `SetAlarm` sends when no write is rejected. -/
def alarmFrames (alarm : pcf8523_alarm_t) : List Xfer :=
  [Xfer.write [0x0A, alarmBcdByte alarm.minute] false,
   Xfer.write [0x0B, alarmBcdByte alarm.hour] false,
   Xfer.write [0x0C, alarmBcdByte alarm.day] false,
   Xfer.write [0x0D, alarmDotwByte alarm.dotw] false]

/-- A register file with a different byte in every register, on a transport that carries out
every call. -/
def sampleBus : Bus :=
  { regs := fun r => (r * 37 + 0xA5) % 256, ptr := 0, accept := fun _ => true, log := [] }

/-- The register file of `sampleBus` on a transport that rejects exactly its third call. -/
def thirdRejectedBus : Bus :=
  { regs := fun r => (r * 37 + 0xA5) % 256, ptr := 0, accept := fun n => decide (n ≠ 2),
    log := [] }

/-- Every register holds 0x07 (so the three low bits of control-2 are set), on a transport that
carries out every call. -/
def allSevenBus : Bus :=
  { regs := fun _ => 0x07, ptr := 0, accept := fun _ => true, log := [] }

/-- The clockout-select field: bits 3-5 of register 0x0F, as a number 0..7. -/
def clockoutBits (bus : Bus) : Nat := bus.regs 0x0F / 8 % 8

/-- The register file of `sampleBus` on a transport that rejects every call. -/
def rejectAllBus : Bus :=
  { regs := fun r => (r * 37 + 0xA5) % 256, ptr := 0, accept := fun _ => false, log := [] }

/-- The register file of `sampleBus` with the register pointer at control-1, on a transport
that rejects exactly its first call. -/
def firstRejectedBus : Bus :=
  { regs := fun r => (r * 37 + 0xA5) % 256, ptr := 0, accept := fun n => decide (n ≠ 0),
    log := [] }

/-- The register file of `sampleBus` on a transport that rejects exactly its sixth call. -/
def sixthRejectedBus : Bus :=
  { regs := fun r => (r * 37 + 0xA5) % 256, ptr := 0, accept := fun n => decide (n ≠ 5),
    log := [] }

/-! ## Codec lemmas -/

theorem TimeToRaw_eq (t : pcf8523_time_t) :
    TimeToRaw t = [encField t.second, encField t.minute, encField t.hour, encField t.day,
      toU8 (int_and t.dotw 0x07), encField t.month, encField t.year] := rfl

theorem RawToTime_eq (b0 b1 b2 b3 b4 b5 b6 : Nat) :
    RawToTime [b0, b1, b2, b3, b4, b5, b6] =
      { second := decField 0x70 b0, minute := decField 0x70 b1, hour := decField 0x30 b2,
        day := decField 0x30 b3, dotw := toI8 (int_and (b4 : Int) 0x07),
        month := decField 0x10 b5, year := decField 0xF0 b6 } := rfl

theorem encField_bcd (v : Int) (h0 : 0 ≤ v) (h1 : v ≤ 99) : ((encField v : Nat) : Int) = bcd v := by
  interval_cases v <;> rfl

theorem encDotw_mod8 (v : Int) (h0 : 0 ≤ v) (h1 : v ≤ 127) :
    ((toU8 (int_and v 0x07) : Nat) : Int) = v % 8 := by
  interval_cases v <;> rfl

theorem decField70_encField (v : Int) (h0 : 0 ≤ v) (h1 : v ≤ 59) :
    decField 0x70 (encField v) = v := by
  interval_cases v <;> rfl

theorem decField30_encField (v : Int) (h0 : 0 ≤ v) (h1 : v ≤ 31) :
    decField 0x30 (encField v) = v := by
  interval_cases v <;> rfl

theorem decField10_encField (v : Int) (h0 : 0 ≤ v) (h1 : v ≤ 12) :
    decField 0x10 (encField v) = v := by
  interval_cases v <;> rfl

theorem decFieldF0_encField (v : Int) (h0 : 0 ≤ v) (h1 : v ≤ 99) :
    decField 0xF0 (encField v) = v := by
  interval_cases v <;> rfl

theorem decDotw_encDotw (v : Int) (h0 : 0 ≤ v) (h1 : v ≤ 6) :
    toI8 (int_and ((toU8 (int_and v 0x07) : Nat) : Int) 0x07) = v := by
  interval_cases v <;> rfl

theorem decField70_val : ∀ x : Nat, x < 256 →
    decField 0x70 x = 10 * ((x / 16 % 8 : Nat) : Int) + ((x % 16 : Nat) : Int) ∧
    decField 0x70 x = decField 0x70 (x % 128) := by
  decide!

theorem decField30_val : ∀ x : Nat, x < 256 →
    decField 0x30 x = 10 * ((x / 16 % 4 : Nat) : Int) + ((x % 16 : Nat) : Int) ∧
    decField 0x30 x = decField 0x30 (x % 64) := by
  decide!

theorem decField10_val : ∀ x : Nat, x < 256 →
    decField 0x10 x = 10 * ((x / 16 % 2 : Nat) : Int) + ((x % 16 : Nat) : Int) ∧
    decField 0x10 x = decField 0x10 (x % 32) := by
  decide!

theorem decFieldF0_val : ∀ x : Nat, x < 256 →
    decField 0xF0 x = toI8 (10 * ((x / 16 : Nat) : Int) + ((x % 16 : Nat) : Int)) ∧
    (10 * (x / 16) + x % 16 ≤ 127 →
      decField 0xF0 x = 10 * ((x / 16 : Nat) : Int) + ((x % 16 : Nat) : Int)) := by
  decide!

theorem decDotw_val : ∀ x : Nat, x < 256 →
    toI8 (int_and (x : Int) 0x07) = ((x % 8 : Nat) : Int) ∧
    toI8 (int_and (x : Int) 0x07) = toI8 (int_and ((x % 8 : Nat) : Int) 0x07) := by
  decide!

/-! ## Codec theorems -/

/-- C1: for every time record with second and minute in 0..59, hour in 0..23, day in 1..31,
month in 1..12, year in 0..99 and dotw in 0..6, decoding the seven bytes produced by
`TimeToRaw` with `RawToTime` gives back the record, equal in all seven fields. -/
theorem RawToTime_TimeToRaw_valid (t : pcf8523_time_t)
    (hsecond : 0 ≤ t.second ∧ t.second ≤ 59) (hminute : 0 ≤ t.minute ∧ t.minute ≤ 59)
    (hhour : 0 ≤ t.hour ∧ t.hour ≤ 23) (hday : 1 ≤ t.day ∧ t.day ≤ 31)
    (hmonth : 1 ≤ t.month ∧ t.month ≤ 12) (hyear : 0 ≤ t.year ∧ t.year ≤ 99)
    (hdotw : 0 ≤ t.dotw ∧ t.dotw ≤ 6) :
    RawToTime (TimeToRaw t) = t := by
  obtain ⟨second, minute, hour, day, month, year, dotw⟩ := t
  simp only at hsecond hminute hhour hday hmonth hyear hdotw
  rw [TimeToRaw_eq, RawToTime_eq]
  simp only
  rw [decField70_encField second hsecond.1 hsecond.2,
    decField70_encField minute hminute.1 hminute.2,
    decField30_encField hour hhour.1 (by omega),
    decField30_encField day (by omega) hday.2,
    decField10_encField month (by omega) hmonth.2,
    decFieldF0_encField year hyear.1 hyear.2,
    decDotw_encDotw dotw hdotw.1 hdotw.2]

/-- C1 at the record second 45, minute 30, hour 23, day 31, month 9, year 23, dotw 2. -/
theorem RawToTime_TimeToRaw_valid_witness :
    RawToTime (TimeToRaw ⟨45, 30, 23, 31, 9, 23, 2⟩) = ⟨45, 30, 23, 31, 9, 23, 2⟩ :=
  RawToTime_TimeToRaw_valid ⟨45, 30, 23, 31, 9, 23, 2⟩ (by decide) (by decide) (by decide)
    (by decide) (by decide) (by decide) (by decide)

/-- C2: for every time record whose second, minute, hour, day, month and year are in 0..99 and
whose dotw is in 0..127, `TimeToRaw` produces the seven bytes
`[bcd second, bcd minute, bcd hour, bcd day, dotw mod 8, bcd month, bcd year]` in that order,
where `bcd v = 16 * (v / 10) + v mod 10`. -/
theorem TimeToRaw_bcd_layout (t : pcf8523_time_t)
    (hsecond : 0 ≤ t.second ∧ t.second ≤ 99) (hminute : 0 ≤ t.minute ∧ t.minute ≤ 99)
    (hhour : 0 ≤ t.hour ∧ t.hour ≤ 99) (hday : 0 ≤ t.day ∧ t.day ≤ 99)
    (hmonth : 0 ≤ t.month ∧ t.month ≤ 99) (hyear : 0 ≤ t.year ∧ t.year ≤ 99)
    (hdotw : 0 ≤ t.dotw ∧ t.dotw ≤ 127) :
    (TimeToRaw t).map (fun b : Nat => (b : Int)) =
      [bcd t.second, bcd t.minute, bcd t.hour, bcd t.day, t.dotw % 8, bcd t.month,
        bcd t.year] := by
  rw [TimeToRaw_eq]
  simp only [List.map_cons, List.map_nil]
  rw [encField_bcd _ hsecond.1 hsecond.2, encField_bcd _ hminute.1 hminute.2,
    encField_bcd _ hhour.1 hhour.2, encField_bcd _ hday.1 hday.2,
    encField_bcd _ hmonth.1 hmonth.2, encField_bcd _ hyear.1 hyear.2,
    encDotw_mod8 _ hdotw.1 hdotw.2]

/-- C2 at second = 45 (byte 0x45), hour = 23 (byte 0x23), and at second = 9 (byte 0x09). -/
theorem TimeToRaw_bcd_layout_witness :
    (TimeToRaw ⟨45, 30, 23, 31, 9, 23, 2⟩).map (fun b : Nat => (b : Int)) =
        [bcd 45, bcd 30, bcd 23, bcd 31, 2 % 8, bcd 9, bcd 23] ∧
      bcd 45 = 0x45 ∧ bcd 23 = 0x23 ∧
      (TimeToRaw ⟨9, 0, 0, 1, 1, 0, 0⟩).map (fun b : Nat => (b : Int)) =
        [bcd 9, bcd 0, bcd 0, bcd 1, 0 % 8, bcd 1, bcd 0] ∧
      bcd 9 = 0x09 :=
  ⟨TimeToRaw_bcd_layout ⟨45, 30, 23, 31, 9, 23, 2⟩ (by decide) (by decide) (by decide)
      (by decide) (by decide) (by decide) (by decide),
    by decide, by decide,
    TimeToRaw_bcd_layout ⟨9, 0, 0, 1, 1, 0, 0⟩ (by decide) (by decide) (by decide)
      (by decide) (by decide) (by decide) (by decide),
    by decide⟩

/-- C3 as stated fails: for the buffer whose year byte is 0xC8 the sum `10 * tens + low nibble`
is 128, which the signed 8-bit year field cannot hold; `RawToTime` yields -128. -/
theorem RawToTime_year_overflow :
    (RawToTime [0, 0, 0, 0, 0, 0, 0xC8]).year = -128 ∧
      (RawToTime [0, 0, 0, 0, 0, 0, 0xC8]).year ≠
        10 * (((0xC8 / 16 : Nat) : Int)) + ((0xC8 % 16 : Nat) : Int) := by
  decide

/-- C3 (amended): for every 7-byte buffer, `RawToTime` yields second and minute as
`10 * (high nibble mod 8) + low nibble`, hour and day as `10 * (high nibble mod 4) + low nibble`,
month as `10 * (high nibble mod 2) + low nibble`, dotw as `b[4] mod 8`, and year as
`10 * high nibble + low nibble` reduced into the signed 8-bit range, which is that sum itself
whenever the sum is at most 127. The result does not depend on bit 7 of `b[0]` and `b[1]`,
bits 6-7 of `b[2]` and `b[3]`, bits 3-7 of `b[4]` or bits 5-7 of `b[5]`, and
`[0x45,0x30,0x23,0x31,0x02,0x09,0x23]` decodes to 23:30:45, day 31, dotw 2, month 9, year 23. -/
theorem RawToTime_fields (b0 b1 b2 b3 b4 b5 b6 : Nat)
    (h0 : b0 < 256) (h1 : b1 < 256) (h2 : b2 < 256) (h3 : b3 < 256) (h4 : b4 < 256)
    (h5 : b5 < 256) (h6 : b6 < 256) :
    (RawToTime [b0, b1, b2, b3, b4, b5, b6]).second
        = 10 * ((b0 / 16 % 8 : Nat) : Int) + ((b0 % 16 : Nat) : Int) ∧
      (RawToTime [b0, b1, b2, b3, b4, b5, b6]).minute
        = 10 * ((b1 / 16 % 8 : Nat) : Int) + ((b1 % 16 : Nat) : Int) ∧
      (RawToTime [b0, b1, b2, b3, b4, b5, b6]).hour
        = 10 * ((b2 / 16 % 4 : Nat) : Int) + ((b2 % 16 : Nat) : Int) ∧
      (RawToTime [b0, b1, b2, b3, b4, b5, b6]).day
        = 10 * ((b3 / 16 % 4 : Nat) : Int) + ((b3 % 16 : Nat) : Int) ∧
      (RawToTime [b0, b1, b2, b3, b4, b5, b6]).dotw = ((b4 % 8 : Nat) : Int) ∧
      (RawToTime [b0, b1, b2, b3, b4, b5, b6]).month
        = 10 * ((b5 / 16 % 2 : Nat) : Int) + ((b5 % 16 : Nat) : Int) ∧
      (RawToTime [b0, b1, b2, b3, b4, b5, b6]).year
        = toI8 (10 * ((b6 / 16 : Nat) : Int) + ((b6 % 16 : Nat) : Int)) ∧
      (10 * (b6 / 16) + b6 % 16 ≤ 127 →
        (RawToTime [b0, b1, b2, b3, b4, b5, b6]).year
          = 10 * ((b6 / 16 : Nat) : Int) + ((b6 % 16 : Nat) : Int)) ∧
      RawToTime [b0, b1, b2, b3, b4, b5, b6]
        = RawToTime [b0 % 128, b1 % 128, b2 % 64, b3 % 64, b4 % 8, b5 % 32, b6] ∧
      RawToTime [0x45, 0x30, 0x23, 0x31, 0x02, 0x09, 0x23]
        = { second := 45, minute := 30, hour := 23, day := 31, dotw := 2, month := 9,
            year := 23 } := by
  simp only [RawToTime_eq]
  refine ⟨(decField70_val b0 h0).1, (decField70_val b1 h1).1, (decField30_val b2 h2).1,
    (decField30_val b3 h3).1, (decDotw_val b4 h4).1, (decField10_val b5 h5).1,
    (decFieldF0_val b6 h6).1, (decFieldF0_val b6 h6).2, ?_, by decide⟩
  rw [← (decField70_val b0 h0).2, ← (decField70_val b1 h1).2, ← (decField30_val b2 h2).2,
    ← (decField30_val b3 h3).2, ← (decField10_val b5 h5).2]
  have h := (decDotw_val b4 h4).2
  simp only [Nat.cast_ofNat] at h ⊢
  rw [← h]

/-- C3 (amended) at a buffer with every discarded flag bit set: it decodes like the scenario
buffer `[0x45,0x30,0x23,0x31,0x02,0x09,0x23]`. -/
theorem RawToTime_fields_witness :
    RawToTime [0xC5, 0xB0, 0xE3, 0xF1, 0xFA, 0xE9, 0x23]
      = RawToTime [0xC5 % 128, 0xB0 % 128, 0xE3 % 64, 0xF1 % 64, 0xFA % 8, 0xE9 % 32, 0x23] ∧
    (RawToTime [0xC5, 0xB0, 0xE3, 0xF1, 0xFA, 0xE9, 0x23]).year = 23 :=
  ⟨(RawToTime_fields 0xC5 0xB0 0xE3 0xF1 0xFA 0xE9 0x23 (by decide) (by decide) (by decide)
      (by decide) (by decide) (by decide) (by decide)).2.2.2.2.2.2.2.2.1,
    by decide⟩

/-! ## Byte lemmas -/

theorem toU8_lt (x : Int) : toU8 x < 256 := by
  unfold toU8
  omega

theorem toU8_natCast (n : Nat) (h : n < 256) : toU8 (n : Int) = n := by
  unfold toU8
  omega

theorem toU32_natCast (n : Nat) (h : n < 4294967296) : toU32 (n : Int) = n := by
  unfold toU32
  omega

theorem toI32_small (n : Nat) (h : n < 2147483648) : toI32 n = (n : Int) := by
  unfold toI32
  have h1 : n % 4294967296 = n := Nat.mod_eq_of_lt (by omega)
  rw [h1, if_pos h]

theorem testBit_high (x i : Nat) (hx : x < 256) (hi : 8 ≤ i) : x.testBit i = false := by
  apply Nat.testBit_lt_two_pow
  calc x < 2 ^ 8 := hx
    _ ≤ 2 ^ i := Nat.pow_le_pow_right (by decide) hi

theorem int_and_byte (x m : Nat) (hx : x < 256) (hm : m < 256) :
    int_and (x : Int) (m : Int) = ((x &&& m : Nat) : Int) := by
  unfold int_and
  rw [toU32_natCast x (by omega), toU32_natCast m (by omega)]
  have h : x &&& m ≤ x := Nat.and_le_left
  exact toI32_small _ (by omega)

theorem int_or_byte (x m : Nat) (hx : x < 256) (hm : m < 256) :
    int_or (x : Int) (m : Int) = ((x ||| m : Nat) : Int) := by
  unfold int_or
  rw [toU32_natCast x (by omega), toU32_natCast m (by omega)]
  have h : x ||| m < 2 ^ 8 := Nat.or_lt_two_pow hx hm
  exact toI32_small _ (by omega)

theorem toU8_int_and (x m : Nat) (hx : x < 256) (hm : m < 256) :
    toU8 (int_and (x : Int) (m : Int)) = x &&& m := by
  rw [int_and_byte x m hx hm]
  have h : x &&& m ≤ x := Nat.and_le_left
  exact toU8_natCast _ (by omega)

theorem toU8_int_or (x m : Nat) (hx : x < 256) (hm : m < 256) :
    toU8 (int_or (x : Int) (m : Int)) = x ||| m := by
  rw [int_or_byte x m hx hm]
  have h : x ||| m < 2 ^ 8 := Nat.or_lt_two_pow hx hm
  exact toU8_natCast _ (by omega)

theorem and_byte_lt (x m : Nat) (hx : x < 256) : x &&& m < 256 :=
  Nat.lt_of_le_of_lt Nat.and_le_left hx

theorem or_byte_lt (x m : Nat) (hx : x < 256) (hm : m < 256) : x ||| m < 256 :=
  Nat.or_lt_two_pow (n := 8) hx hm

theorem and_testBit_keep (x m i : Nat) (hx : x < 256) (hm : m.testBit i = true ∨ 8 ≤ i) :
    (x &&& m).testBit i = x.testBit i := by
  rw [Nat.testBit_and]
  rcases hm with hm | hm
  · rw [hm, Bool.and_true]
  · rw [testBit_high x i hx hm, Bool.false_and]

theorem and_testBit_clear (x m i : Nat) (hm : m.testBit i = false) :
    (x &&& m).testBit i = false := by
  rw [Nat.testBit_and, hm, Bool.and_false]

theorem or_testBit_keep (x m i : Nat) (hm : m.testBit i = false) :
    (x ||| m).testBit i = x.testBit i := by
  rw [Nat.testBit_or, hm, Bool.or_false]

theorem or_testBit_set (x m i : Nat) (hm : m.testBit i = true) :
    (x ||| m).testBit i = true := by
  rw [Nat.testBit_or, hm, Bool.or_true]

/-! ## Transport and register-access lemmas -/

theorem i2c_write_frame_accepted (bus : Bus) (a v : Nat) (ns : Bool) (h : bus.accept 0 = true) :
    i2c_write_blocking bus i2c_address [a, v] 2 ns =
      ({ regs := fun r => if r = a then v % 256 else bus.regs r, ptr := a + 1,
         accept := fun n => bus.accept (n + 1),
         log := bus.log ++ [Xfer.write [a, v] ns] }, 2) := by
  simp [i2c_write_blocking, h, storeBytes]

theorem i2c_write_frame_rejected (bus : Bus) (a v : Nat) (ns : Bool) (h : bus.accept 0 = false) :
    i2c_write_blocking bus i2c_address [a, v] 2 ns =
      ({ bus with accept := fun n => bus.accept (n + 1),
                  log := bus.log ++ [Xfer.write [a, v] ns] }, PICO_ERROR_GENERIC) := by
  simp [i2c_write_blocking, h]

theorem WriteControl_accepted (bus : Bus) (v a : Nat) (h : bus.accept 0 = true) :
    WriteControl bus v a =
      ({ regs := fun r => if r = a then v % 256 else bus.regs r, ptr := a + 1,
         accept := fun n => bus.accept (n + 1),
         log := bus.log ++ [Xfer.write [a, v] false] }, true) := by
  simp [WriteControl, i2c_write_frame_accepted bus a v false h]

theorem WriteControl_rejected (bus : Bus) (v a : Nat) (h : bus.accept 0 = false) :
    WriteControl bus v a =
      ({ bus with accept := fun n => bus.accept (n + 1),
                  log := bus.log ++ [Xfer.write [a, v] false] }, false) := by
  simp [WriteControl, i2c_write_frame_rejected bus a v false h, PICO_ERROR_GENERIC]

theorem ReadControl_accepted (bus : Bus) (a : Nat) (h0 : bus.accept 0 = true)
    (h1 : bus.accept 1 = true) :
    ReadControl bus a =
      ({ regs := bus.regs, ptr := a + 1, accept := fun n => bus.accept (n + 2),
         log := bus.log ++ [Xfer.write [a] true, Xfer.read 1] }, some (bus.regs a % 256)) := by
  simp [ReadControl, i2c_write_blocking, i2c_read_blocking, h0, h1, storeBytes, loadBytes]

/-! ## Control sequences on an accepting transport -/

theorem AcknowledgeAlarm_accepted (bus : Bus) (hwf : bus.wf) (h0 : bus.accept 0 = true)
    (h1 : bus.accept 1 = true) (h2 : bus.accept 2 = true) :
    AcknowledgeAlarm bus =
      ({ regs := fun r => if r = 0x01 then bus.regs 0x01 &&& 0xF7 else bus.regs r,
         ptr := 2, accept := fun n => bus.accept (n + 3),
         log := bus.log ++ [Xfer.write [0x01] true, Xfer.read 1,
           Xfer.write [0x01, bus.regs 0x01 &&& 0xF7] false] }, true) := by
  have hb := hwf 0x01
  have e := toU8_int_and (bus.regs 0x01) 0xF7 hb (by decide)
  have l := and_byte_lt (bus.regs 0x01) 0xF7 hb
  simp only [Nat.cast_ofNat] at e
  simp only [AcknowledgeAlarm, ReadControl_accepted bus 1 h0 h1, Nat.mod_eq_of_lt hb, e]
  rw [WriteControl_accepted _ _ _ (by simpa using h2)]
  simp [Nat.mod_eq_of_lt l]

theorem DisableClockout_accepted (bus : Bus) (hwf : bus.wf) (h0 : bus.accept 0 = true)
    (h1 : bus.accept 1 = true) (h2 : bus.accept 2 = true) :
    DisableClockout bus =
      ({ regs := fun r => if r = 0x0F then bus.regs 0x0F ||| 0x38 else bus.regs r,
         ptr := 16, accept := fun n => bus.accept (n + 3),
         log := bus.log ++ [Xfer.write [0x0F] true, Xfer.read 1,
           Xfer.write [0x0F, bus.regs 0x0F ||| 0x38] false] }, true) := by
  have hb := hwf 0x0F
  have e := toU8_int_or (bus.regs 0x0F) 0x38 hb (by decide)
  have l := or_byte_lt (bus.regs 0x0F) 0x38 hb (by decide)
  simp only [Nat.cast_ofNat] at e
  simp only [DisableClockout, ReadControl_accepted bus 0x0F h0 h1, Nat.mod_eq_of_lt hb, e]
  rw [WriteControl_accepted _ _ _ (by simpa using h2)]
  simp [Nat.mod_eq_of_lt l]

theorem EnableClockout_accepted (bus : Bus) (hwf : bus.wf) (h0 : bus.accept 0 = true)
    (h1 : bus.accept 1 = true) (h2 : bus.accept 2 = true) :
    EnableClockout bus =
      ({ regs := fun r => if r = 0x0F then bus.regs 0x0F &&& 0xC7 else bus.regs r,
         ptr := 16, accept := fun n => bus.accept (n + 3),
         log := bus.log ++ [Xfer.write [0x0F] true, Xfer.read 1,
           Xfer.write [0x0F, bus.regs 0x0F &&& 0xC7] false] }, true) := by
  have hb := hwf 0x0F
  have e := toU8_int_and (bus.regs 0x0F) 0xC7 hb (by decide)
  have l := and_byte_lt (bus.regs 0x0F) 0xC7 hb
  simp only [Nat.cast_ofNat] at e
  simp only [EnableClockout, ReadControl_accepted bus 0x0F h0 h1, Nat.mod_eq_of_lt hb, e]
  rw [WriteControl_accepted _ _ _ (by simpa using h2)]
  simp [Nat.mod_eq_of_lt l]

theorem EnableInterrupt_accepted (bus : Bus) (hwf : bus.wf) (h : bus.allAccepted) :
    EnableInterrupt bus =
      ({ regs := fun r =>
           if r = 0x01 then bus.regs 0x01 ||| 0x07
           else if r = 0x00 then bus.regs 0x00 ||| 0x02
           else if r = 0x0F then bus.regs 0x0F ||| 0x38
           else bus.regs r,
         ptr := 2, accept := fun n => bus.accept (n + 9),
         log := bus.log ++ [Xfer.write [0x0F] true, Xfer.read 1,
           Xfer.write [0x0F, bus.regs 0x0F ||| 0x38] false,
           Xfer.write [0x00] true, Xfer.read 1,
           Xfer.write [0x00, bus.regs 0x00 ||| 0x02] false,
           Xfer.write [0x01] true, Xfer.read 1,
           Xfer.write [0x01, bus.regs 0x01 ||| 0x07] false] }, true) := by
  have hb0 := hwf 0x00
  have hb1 := hwf 0x01
  have e0 := toU8_int_or (bus.regs 0x00) 0x02 hb0 (by decide)
  have l0 := or_byte_lt (bus.regs 0x00) 0x02 hb0 (by decide)
  have e1 := toU8_int_or (bus.regs 0x01) 0x07 hb1 (by decide)
  have l1 := or_byte_lt (bus.regs 0x01) 0x07 hb1 (by decide)
  simp only [Nat.cast_ofNat] at e0 e1
  simp only [EnableInterrupt, DisableClockout_accepted bus hwf (h 0) (h 1) (h 2)]
  rw [ReadControl_accepted _ _ (by simpa using h 3) (by simpa using h 4)]
  simp only [show (0 : Nat) ≠ 15 by decide, if_false, Nat.mod_eq_of_lt hb0, e0]
  rw [WriteControl_accepted _ _ _ (by simpa using h 5)]
  simp only []
  rw [ReadControl_accepted _ _ (by simpa using h 6) (by simpa using h 7)]
  simp only [show (1 : Nat) ≠ 15 by decide, show (1 : Nat) ≠ 0 by decide, if_false,
    Nat.mod_eq_of_lt hb1, e1]
  rw [WriteControl_accepted _ _ _ (by simpa using h 8)]
  simp [Nat.mod_eq_of_lt l0, Nat.mod_eq_of_lt l1]

theorem DisableInterrupt_accepted (bus : Bus) (hwf : bus.wf) (h : bus.allAccepted) :
    DisableInterrupt bus =
      ({ regs := fun r =>
           if r = 0x01 then bus.regs 0x01 ||| 0xF8
           else if r = 0x00 then bus.regs 0x00 &&& 0xF9
           else if r = 0x0F then bus.regs 0x0F &&& 0xC7
           else bus.regs r,
         ptr := 2, accept := fun n => bus.accept (n + 9),
         log := bus.log ++ [Xfer.write [0x0F] true, Xfer.read 1,
           Xfer.write [0x0F, bus.regs 0x0F &&& 0xC7] false,
           Xfer.write [0x00] true, Xfer.read 1,
           Xfer.write [0x00, bus.regs 0x00 &&& 0xF9] false,
           Xfer.write [0x01] true, Xfer.read 1,
           Xfer.write [0x01, bus.regs 0x01 ||| 0xF8] false] }, true) := by
  have hb0 := hwf 0x00
  have hb1 := hwf 0x01
  have e0 := toU8_int_and (bus.regs 0x00) 0xF9 hb0 (by decide)
  have l0 := and_byte_lt (bus.regs 0x00) 0xF9 hb0
  have e1 := toU8_int_or (bus.regs 0x01) 0xF8 hb1 (by decide)
  have l1 := or_byte_lt (bus.regs 0x01) 0xF8 hb1 (by decide)
  simp only [Nat.cast_ofNat] at e0 e1
  simp only [DisableInterrupt, EnableClockout_accepted bus hwf (h 0) (h 1) (h 2)]
  rw [ReadControl_accepted _ _ (by simpa using h 3) (by simpa using h 4)]
  simp only [show (0 : Nat) ≠ 15 by decide, if_false, Nat.mod_eq_of_lt hb0, e0]
  rw [WriteControl_accepted _ _ _ (by simpa using h 5)]
  simp only []
  rw [ReadControl_accepted _ _ (by simpa using h 6) (by simpa using h 7)]
  simp only [show (1 : Nat) ≠ 15 by decide, show (1 : Nat) ≠ 0 by decide, if_false,
    Nat.mod_eq_of_lt hb1, e1]
  rw [WriteControl_accepted _ _ _ (by simpa using h 8)]
  simp [Nat.mod_eq_of_lt l0, Nat.mod_eq_of_lt l1]

/-! ## Alarm lemmas -/

theorem SetAlarm_eq (bus : Bus) (alarm : pcf8523_alarm_t) :
    SetAlarm bus alarm =
      let w1 := i2c_write_blocking bus i2c_address [0x0A, alarmBcdByte alarm.minute] 2 false
      if w1.2 ≠ 2 then (w1.1, false) else
      let w2 := i2c_write_blocking w1.1 i2c_address [0x0B, alarmBcdByte alarm.hour] 2 false
      if w2.2 ≠ 2 then (w2.1, false) else
      let w3 := i2c_write_blocking w2.1 i2c_address [0x0C, alarmBcdByte alarm.day] 2 false
      if w3.2 ≠ 2 then (w3.1, false) else
      let w4 := i2c_write_blocking w3.1 i2c_address [0x0D, alarmDotwByte alarm.dotw] 2 false
      if w4.2 ≠ 2 then (w4.1, false) else (w4.1, true) := rfl

theorem alarmBcdByte_lt (v : Int) : alarmBcdByte v < 256 := by
  unfold alarmBcdByte
  split
  · decide
  · exact toU8_lt _

theorem alarmDotwByte_lt (v : Int) : alarmDotwByte v < 256 := by
  unfold alarmDotwByte
  split
  · decide
  · exact toU8_lt _

theorem alarmBcdByte_bit7 (v : Int) (h0 : -128 ≤ v) (h1 : v ≤ 127) :
    (alarmBcdByte v).testBit 7 = true ↔ v = -1 := by
  interval_cases v <;> decide

theorem alarmDotwByte_bit7 (v : Int) (h0 : -128 ≤ v) (h1 : v ≤ 127) :
    (alarmDotwByte v).testBit 7 = true ↔ v = -1 := by
  interval_cases v <;> decide

theorem alarmBcdByte_inRange (v : Int) (h0 : 0 ≤ v) (h1 : v ≤ 59) :
    ((alarmBcdByte v : Nat) : Int) = 16 * (v / 10) + v % 10 := by
  interval_cases v <;> rfl

theorem alarmDotwByte_inRange (v : Int) (h0 : 0 ≤ v) (h1 : v ≤ 6) :
    ((alarmDotwByte v : Nat) : Int) = v := by
  interval_cases v <;> rfl

theorem SetAlarm_accepted (bus : Bus) (alarm : pcf8523_alarm_t) (h0 : bus.accept 0 = true)
    (h1 : bus.accept 1 = true) (h2 : bus.accept 2 = true) (h3 : bus.accept 3 = true) :
    SetAlarm bus alarm =
      ({ regs := fun r =>
           if r = 0x0D then alarmDotwByte alarm.dotw
           else if r = 0x0C then alarmBcdByte alarm.day
           else if r = 0x0B then alarmBcdByte alarm.hour
           else if r = 0x0A then alarmBcdByte alarm.minute
           else bus.regs r,
         ptr := 14, accept := fun n => bus.accept (n + 4),
         log := bus.log ++ alarmFrames alarm }, true) := by
  rw [SetAlarm_eq]
  simp only [i2c_write_frame_accepted bus _ _ _ h0]
  rw [i2c_write_frame_accepted _ _ _ _ (by simpa using h1)]
  simp only []
  rw [i2c_write_frame_accepted _ _ _ _ (by simpa using h2)]
  simp only []
  rw [i2c_write_frame_accepted _ _ _ _ (by simpa using h3)]
  simp [alarmFrames, Nat.mod_eq_of_lt (alarmBcdByte_lt _), Nat.mod_eq_of_lt (alarmDotwByte_lt _)]

theorem SetAlarm_third_rejected (bus : Bus) (alarm : pcf8523_alarm_t)
    (h0 : bus.accept 0 = true) (h1 : bus.accept 1 = true) (h2 : bus.accept 2 = false) :
    SetAlarm bus alarm =
      ({ regs := fun r =>
           if r = 0x0B then alarmBcdByte alarm.hour
           else if r = 0x0A then alarmBcdByte alarm.minute
           else bus.regs r,
         ptr := 12, accept := fun n => bus.accept (n + 3),
         log := bus.log ++ (alarmFrames alarm).take 3 }, false) := by
  rw [SetAlarm_eq]
  simp only [i2c_write_frame_accepted bus _ _ _ h0]
  rw [i2c_write_frame_accepted _ _ _ _ (by simpa using h1)]
  simp only []
  rw [i2c_write_frame_rejected _ _ _ _ (by simpa using h2)]
  simp [alarmFrames, PICO_ERROR_GENERIC, Nat.mod_eq_of_lt (alarmBcdByte_lt _)]

theorem SetAlarm_second_rejected (bus : Bus) (alarm : pcf8523_alarm_t)
    (h0 : bus.accept 0 = true) (h1 : bus.accept 1 = false) :
    SetAlarm bus alarm =
      ({ regs := fun r => if r = 0x0A then alarmBcdByte alarm.minute else bus.regs r,
         ptr := 11, accept := fun n => bus.accept (n + 2),
         log := bus.log ++ (alarmFrames alarm).take 2 }, false) := by
  rw [SetAlarm_eq]
  simp only [i2c_write_frame_accepted bus _ _ _ h0]
  rw [i2c_write_frame_rejected _ _ _ _ (by simpa using h1)]
  simp [alarmFrames, PICO_ERROR_GENERIC, Nat.mod_eq_of_lt (alarmBcdByte_lt _)]

theorem SetAlarm_first_rejected (bus : Bus) (alarm : pcf8523_alarm_t)
    (h0 : bus.accept 0 = false) :
    SetAlarm bus alarm =
      ({ bus with accept := fun n => bus.accept (n + 1),
                  log := bus.log ++ (alarmFrames alarm).take 1 }, false) := by
  rw [SetAlarm_eq]
  simp only [i2c_write_frame_rejected bus _ _ _ h0]
  simp [alarmFrames, PICO_ERROR_GENERIC]

theorem SetAlarm_fourth_rejected (bus : Bus) (alarm : pcf8523_alarm_t) (h0 : bus.accept 0 = true)
    (h1 : bus.accept 1 = true) (h2 : bus.accept 2 = true) (h3 : bus.accept 3 = false) :
    SetAlarm bus alarm =
      ({ regs := fun r =>
           if r = 0x0C then alarmBcdByte alarm.day
           else if r = 0x0B then alarmBcdByte alarm.hour
           else if r = 0x0A then alarmBcdByte alarm.minute
           else bus.regs r,
         ptr := 13, accept := fun n => bus.accept (n + 4),
         log := bus.log ++ alarmFrames alarm }, false) := by
  rw [SetAlarm_eq]
  simp only [i2c_write_frame_accepted bus _ _ _ h0]
  rw [i2c_write_frame_accepted _ _ _ _ (by simpa using h1)]
  simp only []
  rw [i2c_write_frame_accepted _ _ _ _ (by simpa using h2)]
  simp only []
  rw [i2c_write_frame_rejected _ _ _ _ (by simpa using h3)]
  simp [alarmFrames, PICO_ERROR_GENERIC, Nat.mod_eq_of_lt (alarmBcdByte_lt _)]

theorem sampleBus_wf : sampleBus.wf := fun _ => Nat.mod_lt _ (by decide)

theorem allSevenBus_wf : allSevenBus.wf := fun _ => show (0x07 : Nat) < 256 by decide

/-! ## Alarm theorems -/

/-- C4: on a transport that accepts every write, for every alarm record whose fields are each
either -1 or in range (minute 0..59, hour 0..23, day 1..31, dotw 0..6), `SetAlarm` returns true
and leaves registers 0x0A, 0x0B, 0x0C and 0x0D holding, per field, exactly 0x80 when the field
is -1, `16 * (v / 10) + v mod 10` for a concrete minute, hour or day `v`, and `v` itself for a
concrete dotw. -/
theorem SetAlarm_registers (bus : Bus) (alarm : pcf8523_alarm_t) (hacc : bus.allAccepted)
    (hminute : alarm.minute = -1 ∨ (0 ≤ alarm.minute ∧ alarm.minute ≤ 59))
    (hhour : alarm.hour = -1 ∨ (0 ≤ alarm.hour ∧ alarm.hour ≤ 23))
    (hday : alarm.day = -1 ∨ (1 ≤ alarm.day ∧ alarm.day ≤ 31))
    (hdotw : alarm.dotw = -1 ∨ (0 ≤ alarm.dotw ∧ alarm.dotw ≤ 6)) :
    (SetAlarm bus alarm).2 = true ∧
      (((SetAlarm bus alarm).1.regs 0x0A : Nat) : Int)
        = (if alarm.minute = -1 then 0x80 else 16 * (alarm.minute / 10) + alarm.minute % 10) ∧
      (((SetAlarm bus alarm).1.regs 0x0B : Nat) : Int)
        = (if alarm.hour = -1 then 0x80 else 16 * (alarm.hour / 10) + alarm.hour % 10) ∧
      (((SetAlarm bus alarm).1.regs 0x0C : Nat) : Int)
        = (if alarm.day = -1 then 0x80 else 16 * (alarm.day / 10) + alarm.day % 10) ∧
      (((SetAlarm bus alarm).1.regs 0x0D : Nat) : Int)
        = (if alarm.dotw = -1 then 0x80 else alarm.dotw) := by
  rw [SetAlarm_accepted bus alarm (hacc 0) (hacc 1) (hacc 2) (hacc 3)]
  have bcdCase : ∀ v : Int, v = -1 ∨ (0 ≤ v ∧ v ≤ 59) →
      ((alarmBcdByte v : Nat) : Int) = (if v = -1 then 0x80 else 16 * (v / 10) + v % 10) := by
    intro v hv
    rcases hv with hv | hv
    · subst hv
      rfl
    · rw [if_neg (by omega)]
      exact alarmBcdByte_inRange v hv.1 hv.2
  have dotwCase : ∀ v : Int, v = -1 ∨ (0 ≤ v ∧ v ≤ 6) →
      ((alarmDotwByte v : Nat) : Int) = (if v = -1 then 0x80 else v) := by
    intro v hv
    rcases hv with hv | hv
    · subst hv
      rfl
    · rw [if_neg (by omega)]
      exact alarmDotwByte_inRange v hv.1 hv.2
  refine ⟨rfl, ?_, ?_, ?_, ?_⟩
  · exact bcdCase _ hminute
  · exact bcdCase _ (by omega)
  · exact bcdCase _ (by omega)
  · exact dotwCase _ hdotw

/-- C4 at the header's example, every Tuesday at 8:00 (minute 0, hour 8, day -1, dotw 2): the
four alarm registers receive 0x00, 0x08, 0x80 and 0x02. -/
theorem SetAlarm_registers_witness :
    (SetAlarm sampleBus ⟨0, 8, -1, 2⟩).2 = true ∧
      (((SetAlarm sampleBus ⟨0, 8, -1, 2⟩).1.regs 0x0A : Nat) : Int) = 0x00 ∧
      (((SetAlarm sampleBus ⟨0, 8, -1, 2⟩).1.regs 0x0B : Nat) : Int) = 0x08 ∧
      (((SetAlarm sampleBus ⟨0, 8, -1, 2⟩).1.regs 0x0C : Nat) : Int) = 0x80 ∧
      (((SetAlarm sampleBus ⟨0, 8, -1, 2⟩).1.regs 0x0D : Nat) : Int) = 0x02 :=
  SetAlarm_registers sampleBus ⟨0, 8, -1, 2⟩ (fun _ => rfl) (by decide) (by decide)
    (by decide) (by decide)

/-- C5: for every alarm record over signed 8-bit fields and every transport behaviour, the
frames `SetAlarm` issues are the first `k` of the four frames for registers 0x0A, 0x0B, 0x0C
and 0x0D (all four when the first three writes are accepted), and the byte of each frame has
bit 7 set exactly when its field is the sentinel -1: every other field value, out of range or
negative, gives a byte with bit 7 clear. -/
theorem SetAlarm_bit7 (bus : Bus) (alarm : pcf8523_alarm_t) (hint8 : alarm.isInt8) :
    ∃ m h d w k : Nat,
      (SetAlarm bus alarm).1.log = bus.log ++
        List.take k [Xfer.write [0x0A, m] false, Xfer.write [0x0B, h] false,
          Xfer.write [0x0C, d] false, Xfer.write [0x0D, w] false] ∧
      1 ≤ k ∧ k ≤ 4 ∧
      (bus.accept 0 = true → bus.accept 1 = true → bus.accept 2 = true → k = 4) ∧
      (m.testBit 7 = true ↔ alarm.minute = -1) ∧
      (h.testBit 7 = true ↔ alarm.hour = -1) ∧
      (d.testBit 7 = true ↔ alarm.day = -1) ∧
      (w.testBit 7 = true ↔ alarm.dotw = -1) := by
  obtain ⟨hm, hh, hd, hw⟩ := hint8
  have bits := And.intro (alarmBcdByte_bit7 _ hm.1 hm.2)
    (And.intro (alarmBcdByte_bit7 _ hh.1 hh.2)
      (And.intro (alarmBcdByte_bit7 _ hd.1 hd.2) (alarmDotwByte_bit7 _ hw.1 hw.2)))
  refine ⟨alarmBcdByte alarm.minute, alarmBcdByte alarm.hour, alarmBcdByte alarm.day,
    alarmDotwByte alarm.dotw, ?_⟩
  cases h0 : bus.accept 0
  · exact ⟨1, by rw [SetAlarm_first_rejected bus alarm h0]; rfl, by decide, by decide,
      by simp, bits⟩
  cases h1 : bus.accept 1
  · exact ⟨2, by rw [SetAlarm_second_rejected bus alarm h0 h1]; rfl, by decide, by decide,
      by simp, bits⟩
  cases h2 : bus.accept 2
  · exact ⟨3, by rw [SetAlarm_third_rejected bus alarm h0 h1 h2]; rfl, by decide, by decide,
      by simp, bits⟩
  cases h3 : bus.accept 3
  · exact ⟨4, by rw [SetAlarm_fourth_rejected bus alarm h0 h1 h2 h3]; rfl, by decide,
      by decide, by simp, bits⟩
  · exact ⟨4, by rw [SetAlarm_accepted bus alarm h0 h1 h2 h3]; rfl, by decide, by decide,
      by simp, bits⟩

/-- C5 at the alarm record minute -128, hour 99, day -1, dotw 7, which has two negative fields
and no field in range. -/
theorem SetAlarm_bit7_witness :
    pcf8523_alarm_t.isInt8 ⟨-128, 99, -1, 7⟩ ∧
    ∃ m h d w k : Nat,
      (SetAlarm sampleBus ⟨-128, 99, -1, 7⟩).1.log = sampleBus.log ++
        List.take k [Xfer.write [0x0A, m] false, Xfer.write [0x0B, h] false,
          Xfer.write [0x0C, d] false, Xfer.write [0x0D, w] false] ∧
      1 ≤ k ∧ k ≤ 4 ∧
      (sampleBus.accept 0 = true → sampleBus.accept 1 = true → sampleBus.accept 2 = true →
        k = 4) ∧
      (m.testBit 7 = true ↔ (-128 : Int) = -1) ∧
      (h.testBit 7 = true ↔ (99 : Int) = -1) ∧
      (d.testBit 7 = true ↔ (-1 : Int) = -1) ∧
      (w.testBit 7 = true ↔ (7 : Int) = -1) :=
  ⟨⟨⟨by decide, by decide⟩, ⟨by decide, by decide⟩, ⟨by decide, by decide⟩,
      ⟨by decide, by decide⟩⟩,
    SetAlarm_bit7 sampleBus ⟨-128, 99, -1, 7⟩
      ⟨⟨by decide, by decide⟩, ⟨by decide, by decide⟩, ⟨by decide, by decide⟩,
        ⟨by decide, by decide⟩⟩⟩

theorem alarmBcdByte_formula (v : Int) (h0 : -128 ≤ v) (h1 : v ≤ 127) :
    ((alarmBcdByte v : Nat) : Int)
      = (if v = -1 then 0x80 else (16 * Int.tdiv v 10) % 128 + Int.tmod v 10 % 16) := by
  interval_cases v <;> rfl

/-- C10: for every alarm record over signed 8-bit fields and every initial register state, on
a transport that accepts the first two writes of `SetAlarm` and rejects the third, `SetAlarm`
returns false; registers 0x0A and 0x0B hold the bytes newly encoded from the record's minute
and hour (0x80 for the sentinel -1, otherwise the tens digit shifted into the high nibble with
bit 7 forced to 0, plus the units nibble, which is `16 * (v / 10) + v mod 10` for a value in
range), the same bytes a fully accepted `SetAlarm` leaves there; registers 0x0C and 0x0D keep
their previous values; and exactly three frames are issued, the third carrying the encoded day
to 0x0C: no fourth write is attempted. -/
theorem SetAlarm_third_write_rejected (bus : Bus) (alarm : pcf8523_alarm_t)
    (hint8 : alarm.isInt8)
    (h0 : bus.accept 0 = true) (h1 : bus.accept 1 = true) (h2 : bus.accept 2 = false) :
    (SetAlarm bus alarm).2 = false ∧
      (((SetAlarm bus alarm).1.regs 0x0A : Nat) : Int)
        = (if alarm.minute = -1 then 0x80
           else (16 * Int.tdiv alarm.minute 10) % 128 + Int.tmod alarm.minute 10 % 16) ∧
      (((SetAlarm bus alarm).1.regs 0x0B : Nat) : Int)
        = (if alarm.hour = -1 then 0x80
           else (16 * Int.tdiv alarm.hour 10) % 128 + Int.tmod alarm.hour 10 % 16) ∧
      (0 ≤ alarm.minute ∧ alarm.minute ≤ 59 →
        (((SetAlarm bus alarm).1.regs 0x0A : Nat) : Int)
          = 16 * (alarm.minute / 10) + alarm.minute % 10) ∧
      (0 ≤ alarm.hour ∧ alarm.hour ≤ 23 →
        (((SetAlarm bus alarm).1.regs 0x0B : Nat) : Int)
          = 16 * (alarm.hour / 10) + alarm.hour % 10) ∧
      (SetAlarm bus alarm).1.regs 0x0A
        = (SetAlarm { bus with accept := fun _ => true } alarm).1.regs 0x0A ∧
      (SetAlarm bus alarm).1.regs 0x0B
        = (SetAlarm { bus with accept := fun _ => true } alarm).1.regs 0x0B ∧
      (SetAlarm bus alarm).1.regs 0x0C = bus.regs 0x0C ∧
      (SetAlarm bus alarm).1.regs 0x0D = bus.regs 0x0D ∧
      ∃ d : Nat,
        ((d : Int) = (if alarm.day = -1 then 0x80
           else (16 * Int.tdiv alarm.day 10) % 128 + Int.tmod alarm.day 10 % 16)) ∧
        (SetAlarm bus alarm).1.log = bus.log ++
          [Xfer.write [0x0A, (SetAlarm bus alarm).1.regs 0x0A] false,
           Xfer.write [0x0B, (SetAlarm bus alarm).1.regs 0x0B] false,
           Xfer.write [0x0C, d] false] := by
  obtain ⟨hm, hh, hd, _⟩ := hint8
  rw [SetAlarm_third_rejected bus alarm h0 h1 h2,
    SetAlarm_accepted { bus with accept := fun _ => true } alarm rfl rfl rfl rfl]
  refine ⟨rfl, ?_, ?_, ?_, ?_, ?_, ?_, ?_, ?_, alarmBcdByte alarm.day, ?_, ?_⟩
  · simpa using alarmBcdByte_formula alarm.minute hm.1 hm.2
  · simpa using alarmBcdByte_formula alarm.hour hh.1 hh.2
  · intro hr
    simpa using alarmBcdByte_inRange alarm.minute hr.1 hr.2
  · intro hr
    simpa using alarmBcdByte_inRange alarm.hour hr.1 (by omega)
  · simp
  · simp
  · simp
  · simp
  · exact alarmBcdByte_formula alarm.day hd.1 hd.2
  · simp [alarmFrames]

/-- C10 at the header's example alarm (minute 0, hour 8, day -1, dotw 2) on a transport that
rejects exactly its third call: the call returns false, registers 0x0A and 0x0B receive 0x00
and 0x08, registers 0x0C and 0x0D keep the bytes 0x61 and 0x86 they held. -/
theorem SetAlarm_third_write_rejected_witness :
    pcf8523_alarm_t.isInt8 ⟨0, 8, -1, 2⟩ ∧
      (SetAlarm thirdRejectedBus ⟨0, 8, -1, 2⟩).2 = false ∧
      (((SetAlarm thirdRejectedBus ⟨0, 8, -1, 2⟩).1.regs 0x0A : Nat) : Int) = 0x00 ∧
      (((SetAlarm thirdRejectedBus ⟨0, 8, -1, 2⟩).1.regs 0x0B : Nat) : Int) = 0x08 ∧
      (SetAlarm thirdRejectedBus ⟨0, 8, -1, 2⟩).1.regs 0x0C = 0x61 ∧
      (SetAlarm thirdRejectedBus ⟨0, 8, -1, 2⟩).1.regs 0x0D = 0x86 ∧
      thirdRejectedBus.regs 0x0C = 0x61 ∧ thirdRejectedBus.regs 0x0D = 0x86 := by
  have hint8 : pcf8523_alarm_t.isInt8 ⟨0, 8, -1, 2⟩ :=
    ⟨⟨by decide, by decide⟩, ⟨by decide, by decide⟩, ⟨by decide, by decide⟩,
      ⟨by decide, by decide⟩⟩
  have h := SetAlarm_third_write_rejected thirdRejectedBus ⟨0, 8, -1, 2⟩ hint8 rfl rfl rfl
  refine ⟨hint8, h.1, ?_, ?_, ?_, ?_, by decide, by decide⟩
  · exact h.2.2.2.1 ⟨by decide, by decide⟩
  · exact h.2.2.2.2.1 ⟨by decide, by decide⟩
  · rw [h.2.2.2.2.2.2.2.1]
    decide
  · rw [h.2.2.2.2.2.2.2.2.1]
    decide

/-! ## Acknowledge and interrupt-routing theorems -/

/-- C6: for every initial register state, when the read of control-2 (address write and
one-byte read) and the write of control-2 are carried out, `AcknowledgeAlarm` returns true, the
new control-2 value is the old value with bit 3 cleared and every other bit unchanged, and no
other register is written: every other register keeps its value and the only register frame
issued is the one for register 0x01. -/
theorem AcknowledgeAlarm_clears_only_bit3 (bus : Bus) (hwf : bus.wf)
    (h0 : bus.accept 0 = true) (h1 : bus.accept 1 = true) (h2 : bus.accept 2 = true) :
    (AcknowledgeAlarm bus).2 = true ∧
      ((AcknowledgeAlarm bus).1.regs 0x01).testBit 3 = false ∧
      (∀ i, i ≠ 3 →
        ((AcknowledgeAlarm bus).1.regs 0x01).testBit i = (bus.regs 0x01).testBit i) ∧
      (∀ r, r ≠ 0x01 → (AcknowledgeAlarm bus).1.regs r = bus.regs r) ∧
      (AcknowledgeAlarm bus).1.log = bus.log ++ [Xfer.write [0x01] true, Xfer.read 1,
        Xfer.write [0x01, (AcknowledgeAlarm bus).1.regs 0x01] false] := by
  rw [AcknowledgeAlarm_accepted bus hwf h0 h1 h2]
  refine ⟨rfl, ?_, ?_, ?_, ?_⟩
  · exact and_testBit_clear _ _ _ (by decide)
  · intro i hi
    simp only [if_true]
    apply and_testBit_keep _ _ _ (hwf 0x01)
    by_cases h8 : i < 8
    · left
      interval_cases i <;> first | contradiction | decide
    · right
      omega
  · intro r hr
    simp only [if_neg hr]
  · simp

/-- C6 at `sampleBus`, whose control-2 register holds 0xCA (bit 3 set). -/
theorem AcknowledgeAlarm_clears_only_bit3_witness :
    sampleBus.regs 0x01 = 0xCA ∧ (AcknowledgeAlarm sampleBus).2 = true ∧
      ((AcknowledgeAlarm sampleBus).1.regs 0x01).testBit 3 = false ∧
      (∀ i, i ≠ 3 →
        ((AcknowledgeAlarm sampleBus).1.regs 0x01).testBit i
          = (sampleBus.regs 0x01).testBit i) ∧
      (∀ r, r ≠ 0x01 → (AcknowledgeAlarm sampleBus).1.regs r = sampleBus.regs r) ∧
      (AcknowledgeAlarm sampleBus).1.log = sampleBus.log ++ [Xfer.write [0x01] true,
        Xfer.read 1, Xfer.write [0x01, (AcknowledgeAlarm sampleBus).1.regs 0x01] false] :=
  ⟨by decide, AcknowledgeAlarm_clears_only_bit3 sampleBus sampleBus_wf rfl rfl rfl⟩

/-- C7 fails on the code: with 0x07 in every register and every call carried out,
`DisableInterrupt` returns true and clears bit 1 of control-1, but control-2 ends as 0xFF, so
its bits 0, 1 and 2 are still set (the mask 0xF8 is OR-ed in, not AND-ed). -/
theorem DisableInterrupt_control2_bits_not_cleared :
    (DisableInterrupt allSevenBus).2 = true ∧
      ((DisableInterrupt allSevenBus).1.regs 0x00).testBit 1 = false ∧
      (DisableInterrupt allSevenBus).1.regs 0x01 = 0xFF ∧
      ((DisableInterrupt allSevenBus).1.regs 0x01).testBit 0 = true ∧
      ((DisableInterrupt allSevenBus).1.regs 0x01).testBit 1 = true ∧
      ((DisableInterrupt allSevenBus).1.regs 0x01).testBit 2 = true := by
  rw [DisableInterrupt_accepted allSevenBus allSevenBus_wf (fun _ => rfl)]
  decide

/-- C8: on a transport where every call is carried out and for every initial register state,
`EnableInterrupt` returns true and afterwards control-1 (register 0x00) has bit 1 set and
control-2 (register 0x01) has bits 0, 1 and 2 set. -/
theorem EnableInterrupt_sets_enable_bits (bus : Bus) (hwf : bus.wf) (hacc : bus.allAccepted) :
    (EnableInterrupt bus).2 = true ∧
      ((EnableInterrupt bus).1.regs 0x00).testBit 1 = true ∧
      ((EnableInterrupt bus).1.regs 0x01).testBit 0 = true ∧
      ((EnableInterrupt bus).1.regs 0x01).testBit 1 = true ∧
      ((EnableInterrupt bus).1.regs 0x01).testBit 2 = true := by
  rw [EnableInterrupt_accepted bus hwf hacc]
  refine ⟨rfl, ?_, ?_, ?_, ?_⟩ <;> exact or_testBit_set _ _ _ (by decide)

/-- C8 at a register file in which every byte is 0x00 before the call. -/
theorem EnableInterrupt_sets_enable_bits_witness :
    (EnableInterrupt { sampleBus with regs := fun _ => 0 }).2 = true ∧
      ((EnableInterrupt { sampleBus with regs := fun _ => 0 }).1.regs 0x00).testBit 1 = true ∧
      ((EnableInterrupt { sampleBus with regs := fun _ => 0 }).1.regs 0x01).testBit 0 = true ∧
      ((EnableInterrupt { sampleBus with regs := fun _ => 0 }).1.regs 0x01).testBit 1 = true ∧
      ((EnableInterrupt { sampleBus with regs := fun _ => 0 }).1.regs 0x01).testBit 2 = true :=
  EnableInterrupt_sets_enable_bits { sampleBus with regs := fun _ => 0 }
    (fun _ => show (0 : Nat) < 256 by decide) (fun _ => rfl)

/-- C9: on a transport where every call is carried out and for every initial register state,
after `EnableInterrupt` bits 3, 4 and 5 of register 0x0F are all set (pattern 111) and after
`DisableInterrupt` they are all clear (pattern 000); in both cases every other bit of register
0x0F is unchanged. -/
theorem clockout_bits_after_interrupt_routing (bus : Bus) (hwf : bus.wf)
    (hacc : bus.allAccepted) :
    (((EnableInterrupt bus).1.regs 0x0F).testBit 3 = true ∧
      ((EnableInterrupt bus).1.regs 0x0F).testBit 4 = true ∧
      ((EnableInterrupt bus).1.regs 0x0F).testBit 5 = true ∧
      (∀ i, i ≠ 3 → i ≠ 4 → i ≠ 5 →
        ((EnableInterrupt bus).1.regs 0x0F).testBit i = (bus.regs 0x0F).testBit i)) ∧
    (((DisableInterrupt bus).1.regs 0x0F).testBit 3 = false ∧
      ((DisableInterrupt bus).1.regs 0x0F).testBit 4 = false ∧
      ((DisableInterrupt bus).1.regs 0x0F).testBit 5 = false ∧
      (∀ i, i ≠ 3 → i ≠ 4 → i ≠ 5 →
        ((DisableInterrupt bus).1.regs 0x0F).testBit i = (bus.regs 0x0F).testBit i)) := by
  rw [EnableInterrupt_accepted bus hwf hacc, DisableInterrupt_accepted bus hwf hacc]
  simp only [show (15 : Nat) ≠ 1 by decide, show (15 : Nat) ≠ 0 by decide, if_false, if_true]
  refine ⟨⟨or_testBit_set _ _ _ (by decide), or_testBit_set _ _ _ (by decide),
    or_testBit_set _ _ _ (by decide), ?_⟩,
    ⟨and_testBit_clear _ _ _ (by decide), and_testBit_clear _ _ _ (by decide),
      and_testBit_clear _ _ _ (by decide), ?_⟩⟩
  · intro i h3 h4 h5
    apply or_testBit_keep
    by_cases h8 : i < 8
    · interval_cases i <;> first | contradiction | decide
    · exact testBit_high _ _ (by decide) (by omega)
  · intro i h3 h4 h5
    apply and_testBit_keep _ _ _ (hwf 0x0F)
    by_cases h8 : i < 8
    · left
      interval_cases i <;> first | contradiction | decide
    · right
      omega

/-- C9 at `sampleBus`, whose register 0x0F holds 0xD0 (clockout bits 010). -/
theorem clockout_bits_after_interrupt_routing_witness :
    sampleBus.regs 0x0F = 0xD0 ∧
    (((EnableInterrupt sampleBus).1.regs 0x0F).testBit 3 = true ∧
      ((EnableInterrupt sampleBus).1.regs 0x0F).testBit 4 = true ∧
      ((EnableInterrupt sampleBus).1.regs 0x0F).testBit 5 = true ∧
      (∀ i, i ≠ 3 → i ≠ 4 → i ≠ 5 →
        ((EnableInterrupt sampleBus).1.regs 0x0F).testBit i
          = (sampleBus.regs 0x0F).testBit i)) ∧
    (((DisableInterrupt sampleBus).1.regs 0x0F).testBit 3 = false ∧
      ((DisableInterrupt sampleBus).1.regs 0x0F).testBit 4 = false ∧
      ((DisableInterrupt sampleBus).1.regs 0x0F).testBit 5 = false ∧
      (∀ i, i ≠ 3 → i ≠ 4 → i ≠ 5 →
        ((DisableInterrupt sampleBus).1.regs 0x0F).testBit i
          = (sampleBus.regs 0x0F).testBit i)) :=
  ⟨by decide, clockout_bits_after_interrupt_routing sampleBus sampleBus_wf (fun _ => rfl)⟩

/-! ## Transport calls under every behaviour -/

theorem ReadControl_eq (bus : Bus) (a : Nat) :
    ReadControl bus a =
      ({ regs := bus.regs,
         ptr := (if bus.accept 0 = true then a else bus.ptr)
           + (if bus.accept 1 = true then 1 else 0),
         accept := fun n => bus.accept (n + 2),
         log := bus.log ++ [Xfer.write [a] true, Xfer.read 1] },
        if bus.accept 1 = true then
          some (bus.regs (if bus.accept 0 = true then a else bus.ptr) % 256)
        else none) := by
  cases h0 : bus.accept 0 <;> cases h1 : bus.accept 1 <;>
    simp [ReadControl, i2c_write_blocking, i2c_read_blocking, h0, h1, storeBytes, loadBytes,
      PICO_ERROR_GENERIC]

theorem WriteControl_eq (bus : Bus) (v a : Nat) :
    WriteControl bus v a =
      ({ regs := fun r => if bus.accept 0 = true ∧ r = a then v % 256 else bus.regs r,
         ptr := if bus.accept 0 = true then a + 1 else bus.ptr,
         accept := fun n => bus.accept (n + 1),
         log := bus.log ++ [Xfer.write [a, v] false] }, bus.accept 0) := by
  cases h0 : bus.accept 0
  · rw [WriteControl_rejected bus v a h0]
    simp
  · rw [WriteControl_accepted bus v a h0]
    simp

theorem ReadControl_regs (bus : Bus) (a : Nat) : (ReadControl bus a).1.regs = bus.regs := by
  rw [ReadControl_eq]

theorem WriteControl_regs (bus : Bus) (v a r : Nat) (hr : r ≠ a) :
    (WriteControl bus v a).1.regs r = bus.regs r := by
  rw [WriteControl_eq]
  simp [hr]

theorem DebugControl_regs (bus : Bus) (a : Nat) : (DebugControl bus a).regs = bus.regs :=
  ReadControl_regs bus a

theorem i2c_write_frame_regs (bus : Bus) (a v r : Nat) (ns : Bool) (hr : r ≠ a) :
    (i2c_write_blocking bus i2c_address [a, v] 2 ns).1.regs r = bus.regs r := by
  cases h0 : bus.accept 0
  · rw [i2c_write_frame_rejected bus a v ns h0]
  · rw [i2c_write_frame_accepted bus a v ns h0]
    simp [hr]

/-! ## Timer theorems -/

theorem AcknowledgeTimerA_accepted (bus : Bus) (hwf : bus.wf) (h0 : bus.accept 0 = true)
    (h1 : bus.accept 1 = true) (h2 : bus.accept 2 = true) :
    AcknowledgeTimerA bus =
      ({ regs := fun r => if r = 0x01 then bus.regs 0x01 &&& 0xBF else bus.regs r,
         ptr := 2, accept := fun n => bus.accept (n + 3),
         log := bus.log ++ [Xfer.write [0x01] true, Xfer.read 1,
           Xfer.write [0x01, bus.regs 0x01 &&& 0xBF] false] }, true) := by
  have hb := hwf 0x01
  have e := toU8_int_and (bus.regs 0x01) 0xBF hb (by decide)
  have l := and_byte_lt (bus.regs 0x01) 0xBF hb
  simp only [Nat.cast_ofNat] at e
  simp only [AcknowledgeTimerA, ReadControl_accepted bus 1 h0 h1, Nat.mod_eq_of_lt hb, e]
  rw [WriteControl_accepted _ _ _ (by simpa using h2)]
  simp [Nat.mod_eq_of_lt l]

theorem EnableCountdownTimerA_accepted (bus : Bus) (hwf : bus.wf) (h0 : bus.accept 0 = true)
    (h1 : bus.accept 1 = true) (h2 : bus.accept 2 = true) :
    EnableCountdownTimerA bus =
      ({ regs := fun r => if r = 0x0F then (bus.regs 0x0F ||| 0x02) &&& 0xFB else bus.regs r,
         ptr := 16, accept := fun n => bus.accept (n + 3),
         log := bus.log ++ [Xfer.write [0x0F] true, Xfer.read 1,
           Xfer.write [0x0F, (bus.regs 0x0F ||| 0x02) &&& 0xFB] false] }, true) := by
  have hb := hwf 0x0F
  have e1 := toU8_int_or (bus.regs 0x0F) 0x02 hb (by decide)
  have l1 := or_byte_lt (bus.regs 0x0F) 0x02 hb (by decide)
  have e2 := toU8_int_and (bus.regs 0x0F ||| 0x02) 0xFB l1 (by decide)
  have l2 := and_byte_lt (bus.regs 0x0F ||| 0x02) 0xFB l1
  simp only [Nat.cast_ofNat] at e1 e2
  simp only [EnableCountdownTimerA, ReadControl_accepted bus 0x0F h0 h1, Nat.mod_eq_of_lt hb,
    e1, e2]
  rw [WriteControl_accepted _ _ _ (by simpa using h2)]
  simp [Nat.mod_eq_of_lt l2]

theorem SetCountdownTimerASeconds_accepted (bus : Bus) (seconds : Nat) (hs : seconds < 256)
    (hwf : bus.wf) (h : bus.allAccepted) :
    (SetCountdownTimerASeconds bus seconds).2 = true ∧
      (SetCountdownTimerASeconds bus seconds).1.regs = (fun r =>
        if r = 0x11 then seconds
        else if r = 0x10 then 0x02
        else if r = 0x0F then (bus.regs 0x0F ||| 0x02) &&& 0xFB
        else bus.regs r) := by
  simp only [SetCountdownTimerASeconds, EnableCountdownTimerA_accepted bus hwf (h 0) (h 1) (h 2)]
  rw [WriteControl_accepted _ _ _ (by simpa using h 3)]
  simp only []
  rw [WriteControl_accepted _ _ _ (by simpa using h 4)]
  simp only [DebugControl_regs]
  refine ⟨trivial, ?_⟩
  funext r
  simp [Nat.mod_eq_of_lt hs]

/-- C12: on a transport where every call is carried out, for every byte `s` in 0..255 and every
initial register state, `SetCountdownTimerASeconds s` returns true and afterwards register 0x0F
has bit 1 set and bit 2 cleared with every other bit unchanged, register 0x10 equals 0x02 and
register 0x11 equals `s`. -/
theorem SetCountdownTimerASeconds_registers (bus : Bus) (s : Nat) (hs : s < 256)
    (hwf : bus.wf) (hacc : bus.allAccepted) :
    (SetCountdownTimerASeconds bus s).2 = true ∧
      ((SetCountdownTimerASeconds bus s).1.regs 0x0F).testBit 1 = true ∧
      ((SetCountdownTimerASeconds bus s).1.regs 0x0F).testBit 2 = false ∧
      (∀ i, i ≠ 1 → i ≠ 2 →
        ((SetCountdownTimerASeconds bus s).1.regs 0x0F).testBit i
          = (bus.regs 0x0F).testBit i) ∧
      (SetCountdownTimerASeconds bus s).1.regs 0x10 = 0x02 ∧
      (SetCountdownTimerASeconds bus s).1.regs 0x11 = s := by
  obtain ⟨hret, hregs⟩ := SetCountdownTimerASeconds_accepted bus s hs hwf hacc
  rw [hregs]
  refine ⟨hret, ?_, ?_, ?_, rfl, rfl⟩
  · show ((bus.regs 0x0F ||| 0x02) &&& 0xFB).testBit 1 = true
    rw [Nat.testBit_and, or_testBit_set _ _ _ (by decide)]
    decide
  · exact and_testBit_clear _ _ _ (by decide)
  · intro i h1 h2
    show ((bus.regs 0x0F ||| 0x02) &&& 0xFB).testBit i = (bus.regs 0x0F).testBit i
    have hor : (bus.regs 0x0F ||| 0x02).testBit i = (bus.regs 0x0F).testBit i := by
      apply or_testBit_keep
      by_cases h8 : i < 8
      · interval_cases i <;> first | contradiction | decide
      · exact testBit_high _ _ (by decide) (by omega)
    rw [← hor]
    apply and_testBit_keep _ _ _ (or_byte_lt _ _ (hwf 0x0F) (by decide))
    by_cases h8 : i < 8
    · left
      interval_cases i <;> first | contradiction | decide
    · right
      omega

/-- C12 at `s = 30` on `sampleBus`, whose register 0x0F holds 0xD0. -/
theorem SetCountdownTimerASeconds_registers_witness :
    sampleBus.regs 0x0F = 0xD0 ∧
      (SetCountdownTimerASeconds sampleBus 30).2 = true ∧
      ((SetCountdownTimerASeconds sampleBus 30).1.regs 0x0F).testBit 1 = true ∧
      ((SetCountdownTimerASeconds sampleBus 30).1.regs 0x0F).testBit 2 = false ∧
      (∀ i, i ≠ 1 → i ≠ 2 →
        ((SetCountdownTimerASeconds sampleBus 30).1.regs 0x0F).testBit i
          = (sampleBus.regs 0x0F).testBit i) ∧
      (SetCountdownTimerASeconds sampleBus 30).1.regs 0x10 = 0x02 ∧
      (SetCountdownTimerASeconds sampleBus 30).1.regs 0x11 = 30 :=
  ⟨by decide,
    SetCountdownTimerASeconds_registers sampleBus 30 (by decide) sampleBus_wf (fun _ => rfl)⟩

/-- C13: for every initial register state, when the read of control-2 (address write and
one-byte read) and the write of control-2 are carried out, `AcknowledgeTimerA` returns true, the
new control-2 value is the old value with bit 6 cleared and every other bit (the alarm flag,
bit 3, among them) unchanged, and no other register is written: every other register keeps its
value and the only register frame issued is the one for register 0x01. -/
theorem AcknowledgeTimerA_clears_only_bit6 (bus : Bus) (hwf : bus.wf)
    (h0 : bus.accept 0 = true) (h1 : bus.accept 1 = true) (h2 : bus.accept 2 = true) :
    (AcknowledgeTimerA bus).2 = true ∧
      ((AcknowledgeTimerA bus).1.regs 0x01).testBit 6 = false ∧
      (∀ i, i ≠ 6 →
        ((AcknowledgeTimerA bus).1.regs 0x01).testBit i = (bus.regs 0x01).testBit i) ∧
      ((AcknowledgeTimerA bus).1.regs 0x01).testBit 3 = (bus.regs 0x01).testBit 3 ∧
      (∀ r, r ≠ 0x01 → (AcknowledgeTimerA bus).1.regs r = bus.regs r) ∧
      (AcknowledgeTimerA bus).1.log = bus.log ++ [Xfer.write [0x01] true, Xfer.read 1,
        Xfer.write [0x01, (AcknowledgeTimerA bus).1.regs 0x01] false] := by
  rw [AcknowledgeTimerA_accepted bus hwf h0 h1 h2]
  have keep : ∀ i, i ≠ 6 →
      (bus.regs 0x01 &&& 0xBF).testBit i = (bus.regs 0x01).testBit i := by
    intro i hi
    apply and_testBit_keep _ _ _ (hwf 0x01)
    by_cases h8 : i < 8
    · left
      interval_cases i <;> first | contradiction | decide
    · right
      omega
  refine ⟨rfl, ?_, ?_, ?_, ?_, ?_⟩
  · exact and_testBit_clear _ _ _ (by decide)
  · intro i hi
    simp only [if_true]
    exact keep i hi
  · simp only [if_true]
    exact keep 3 (by decide)
  · intro r hr
    simp only [if_neg hr]
  · simp

/-- C13 at `sampleBus`, whose control-2 register holds 0xCA (bits 6 and 3 set). -/
theorem AcknowledgeTimerA_clears_only_bit6_witness :
    sampleBus.regs 0x01 = 0xCA ∧ (AcknowledgeTimerA sampleBus).2 = true ∧
      ((AcknowledgeTimerA sampleBus).1.regs 0x01).testBit 6 = false ∧
      (∀ i, i ≠ 6 →
        ((AcknowledgeTimerA sampleBus).1.regs 0x01).testBit i
          = (sampleBus.regs 0x01).testBit i) ∧
      ((AcknowledgeTimerA sampleBus).1.regs 0x01).testBit 3 = (sampleBus.regs 0x01).testBit 3 ∧
      (∀ r, r ≠ 0x01 → (AcknowledgeTimerA sampleBus).1.regs r = sampleBus.regs r) ∧
      (AcknowledgeTimerA sampleBus).1.log = sampleBus.log ++ [Xfer.write [0x01] true,
        Xfer.read 1, Xfer.write [0x01, (AcknowledgeTimerA sampleBus).1.regs 0x01] false] :=
  ⟨by decide, AcknowledgeTimerA_clears_only_bit6 sampleBus sampleBus_wf rfl rfl rfl⟩

/-! ## Time block and status theorems -/

theorem i2c_write_frame_eq (bus : Bus) (a v : Nat) (ns : Bool) :
    i2c_write_blocking bus i2c_address [a, v] 2 ns =
      ({ regs := fun r => if bus.accept 0 = true ∧ r = a then v % 256 else bus.regs r,
         ptr := if bus.accept 0 = true then a + 1 else bus.ptr,
         accept := fun n => bus.accept (n + 1),
         log := bus.log ++ [Xfer.write [a, v] ns] },
        if bus.accept 0 = true then 2 else PICO_ERROR_GENERIC) := by
  cases h0 : bus.accept 0
  · rw [i2c_write_frame_rejected bus a v ns h0]
    simp
  · rw [i2c_write_frame_accepted bus a v ns h0]
    simp

theorem ReadRaw_eq (bus : Bus) :
    ReadRaw bus =
      ({ regs := bus.regs,
         ptr := (if bus.accept 0 = true then 0x03 else bus.ptr)
           + (if bus.accept 1 = true then 7 else 0),
         accept := fun n => bus.accept (n + 2),
         log := bus.log ++ [Xfer.write [0x03] true, Xfer.read 7] },
        if bus.accept 1 = true then
          some (loadBytes bus.regs (if bus.accept 0 = true then 0x03 else bus.ptr) 7)
        else none) := by
  cases h0 : bus.accept 0 <;> cases h1 : bus.accept 1 <;>
    simp [ReadRaw, i2c_write_blocking, i2c_read_blocking, h0, h1, storeBytes,
      PICO_ERROR_GENERIC]

theorem encField_lt (v : Int) : encField v < 256 := toU8_lt _

theorem bit6_test : ∀ v : Nat, v < 256 →
    ((int_and (v : Int) 0x40 = 0x40) ↔ v.testBit 6 = true) := by
  decide!

theorem testBit_mod_256 (x i : Nat) (hi : i < 8) : (x % 256).testBit i = x.testBit i := by
  have h := Nat.testBit_mod_two_pow x 8 i
  simp only [hi, decide_True, Bool.true_and] at h
  exact h

/-- C16: `CheckCountdownTimerA` returns true exactly when its register read of control-2
returns a value and bit 6 of that value is set, whatever the other bits are; with the address
write carried out this is: the byte read is carried out and bit 6 of register 0x01 is set. The
call issues one address write and one byte read and no register write: the register file is
unchanged. -/
theorem CheckCountdownTimerA_iff (bus : Bus) :
    ((CheckCountdownTimerA bus).2 = true ↔
        ∃ v, (ReadControl bus 0x01).2 = some v ∧ v.testBit 6 = true) ∧
      (bus.accept 0 = true →
        ((CheckCountdownTimerA bus).2 = true ↔
          bus.accept 1 = true ∧ (bus.regs 0x01).testBit 6 = true)) ∧
      (CheckCountdownTimerA bus).1.regs = bus.regs ∧
      (CheckCountdownTimerA bus).1.log = bus.log ++ [Xfer.write [0x01] true, Xfer.read 1] := by
  simp only [CheckCountdownTimerA, ReadControl_eq]
  cases h1 : bus.accept 1
  · simp
  · have hb := bit6_test (bus.regs (if bus.accept 0 = true then 1 else bus.ptr) % 256)
      (Nat.mod_lt _ (by decide))
    push_cast at hb
    refine ⟨?_, ?_, ?_, ?_⟩
    · simp [hb]
    · intro h0
      simp only [h0, if_true] at hb
      simp [hb, h0, testBit_mod_256]
    · simp
    · simp

/-- C16 at `sampleBus`, whose control-2 register holds 0xCA (bit 6 set): the call returns true
and leaves the register file as it was. -/
theorem CheckCountdownTimerA_iff_witness :
    sampleBus.regs 0x01 = 0xCA ∧ (CheckCountdownTimerA sampleBus).2 = true ∧
      (CheckCountdownTimerA sampleBus).1.regs = sampleBus.regs :=
  ⟨by decide,
    ((CheckCountdownTimerA_iff sampleBus).2.1 rfl).2 ⟨rfl, by decide⟩,
    (CheckCountdownTimerA_iff sampleBus).2.2.1⟩

/-- C15: `Read` returns true exactly when its 7-byte block read (issued after the address byte
0x03) returns 7; in that case the output record is `RawToTime` of the bytes delivered, and
otherwise `Read` returns false and the caller's record is unchanged. With both calls carried
out the bytes are those of registers 0x03..0x09; with the block read rejected the result is
false whatever happened to the address write. -/
theorem Read_result (bus : Bus) (time : pcf8523_time_t) :
    ((Read bus time).2.2 = true ↔
        (i2c_read_blocking (i2c_write_blocking bus i2c_address [0x03] 1 true).1
          i2c_address 7 false).2.2 = 7) ∧
      ((Read bus time).2.2 = true →
        (Read bus time).2.1 = RawToTime
          (i2c_read_blocking (i2c_write_blocking bus i2c_address [0x03] 1 true).1
            i2c_address 7 false).2.1) ∧
      ((Read bus time).2.2 ≠ true →
        (Read bus time).2.2 = false ∧ (Read bus time).2.1 = time) ∧
      (bus.accept 0 = true → bus.accept 1 = true →
        (Read bus time).2.2 = true ∧
        (Read bus time).2.1 = RawToTime [bus.regs 3 % 256, bus.regs 4 % 256, bus.regs 5 % 256,
          bus.regs 6 % 256, bus.regs 7 % 256, bus.regs 8 % 256, bus.regs 9 % 256]) ∧
      (bus.accept 1 = false → (Read bus time).2.2 = false ∧ (Read bus time).2.1 = time) := by
  cases h0 : bus.accept 0 <;> cases h1 : bus.accept 1 <;>
    simp [Read, ReadRaw, i2c_write_blocking, i2c_read_blocking, h0, h1, storeBytes, loadBytes,
      PICO_ERROR_GENERIC]

/-- C15 at `sampleBus` (both calls carried out) and at `rejectAllBus` (block read rejected),
with the caller's record holding 1 in every field. -/
theorem Read_result_witness :
    ((Read sampleBus ⟨1, 1, 1, 1, 1, 1, 1⟩).2.2 = true ∧
      (Read sampleBus ⟨1, 1, 1, 1, 1, 1, 1⟩).2.1 = RawToTime [sampleBus.regs 3 % 256,
        sampleBus.regs 4 % 256, sampleBus.regs 5 % 256, sampleBus.regs 6 % 256,
        sampleBus.regs 7 % 256, sampleBus.regs 8 % 256, sampleBus.regs 9 % 256]) ∧
    ((Read rejectAllBus ⟨1, 1, 1, 1, 1, 1, 1⟩).2.2 = false ∧
      (Read rejectAllBus ⟨1, 1, 1, 1, 1, 1, 1⟩).2.1 = ⟨1, 1, 1, 1, 1, 1, 1⟩) :=
  ⟨(Read_result sampleBus ⟨1, 1, 1, 1, 1, 1, 1⟩).2.2.2.1 rfl rfl,
    (Read_result rejectAllBus ⟨1, 1, 1, 1, 1, 1, 1⟩).2.2.2.2 rfl⟩

theorem Write_eq (bus : Bus) (t : pcf8523_time_t) :
    Write bus t =
      ({ regs := fun r =>
           if bus.accept 6 = true ∧ r = 9 then encField t.year
           else if bus.accept 5 = true ∧ r = 8 then encField t.month
           else if bus.accept 4 = true ∧ r = 7 then toU8 (int_and t.dotw 0x07)
           else if bus.accept 3 = true ∧ r = 6 then encField t.day
           else if bus.accept 2 = true ∧ r = 5 then encField t.hour
           else if bus.accept 1 = true ∧ r = 4 then encField t.minute
           else if bus.accept 0 = true ∧ r = 3 then encField t.second
           else bus.regs r,
         ptr := (WriteLoop (TimeToRaw t) 7 3 bus).ptr,
         accept := fun n => bus.accept (n + 7),
         log := bus.log ++ [Xfer.write [3, encField t.second] false,
           Xfer.write [4, encField t.minute] false, Xfer.write [5, encField t.hour] false,
           Xfer.write [6, encField t.day] false,
           Xfer.write [7, toU8 (int_and t.dotw 0x07)] false,
           Xfer.write [8, encField t.month] false, Xfer.write [9, encField t.year] false] },
        true) := by
  simp [Write, WriteLoop, TimeToRaw_eq, i2c_write_frame_eq, Nat.mod_eq_of_lt (encField_lt _),
    Nat.mod_eq_of_lt (toU8_lt _)]

/-- C17: for every time record `t` and every transport behaviour, `Write` issues exactly seven
bus writes, each a 2-byte frame `[address, value]`, with addresses 3, 4, 5, 6, 7, 8, 9 in that
order and the i-th value equal to the i-th byte of `TimeToRaw t`; on a transport that accepts
every write, registers 0x03..0x09 afterwards hold `TimeToRaw t` and no other register is
changed. -/
theorem Write_frames (bus : Bus) (t : pcf8523_time_t) :
    (TimeToRaw t).length = 7 ∧
      (Write bus t).1.log = bus.log ++
        [Xfer.write [3, (TimeToRaw t).getD 0 0] false,
         Xfer.write [4, (TimeToRaw t).getD 1 0] false,
         Xfer.write [5, (TimeToRaw t).getD 2 0] false,
         Xfer.write [6, (TimeToRaw t).getD 3 0] false,
         Xfer.write [7, (TimeToRaw t).getD 4 0] false,
         Xfer.write [8, (TimeToRaw t).getD 5 0] false,
         Xfer.write [9, (TimeToRaw t).getD 6 0] false] ∧
      (bus.allAccepted →
        (∀ i, i < 7 → (Write bus t).1.regs (3 + i) = (TimeToRaw t).getD i 0) ∧
        (∀ r, r < 3 ∨ 9 < r → (Write bus t).1.regs r = bus.regs r)) := by
  rw [Write_eq]
  refine ⟨rfl, ?_, ?_⟩
  · simp [TimeToRaw_eq]
  · intro hacc
    simp only [hacc 0, hacc 1, hacc 2, hacc 3, hacc 4, hacc 5, hacc 6, true_and]
    constructor
    · intro i hi
      interval_cases i <;> simp [TimeToRaw_eq]
    · intro r hr
      have h3 : r ≠ 3 := by omega
      have h4 : r ≠ 4 := by omega
      have h5 : r ≠ 5 := by omega
      have h6 : r ≠ 6 := by omega
      have h7 : r ≠ 7 := by omega
      have h8 : r ≠ 8 := by omega
      have h9 : r ≠ 9 := by omega
      simp [h3, h4, h5, h6, h7, h8, h9]

/-- C17 at the record second 45, minute 30, hour 23, day 31, month 9, year 23, dotw 2 on
`sampleBus`: registers 0x03..0x09 receive 0x45, 0x30, 0x23, 0x31, 0x02, 0x09, 0x23 and
register 0x0A keeps its byte. -/
theorem Write_frames_witness :
    (∀ i, i < 7 → (Write sampleBus ⟨45, 30, 23, 31, 9, 23, 2⟩).1.regs (3 + i)
        = (TimeToRaw ⟨45, 30, 23, 31, 9, 23, 2⟩).getD i 0) ∧
      (∀ r, r < 3 ∨ 9 < r →
        (Write sampleBus ⟨45, 30, 23, 31, 9, 23, 2⟩).1.regs r = sampleBus.regs r) ∧
      TimeToRaw ⟨45, 30, 23, 31, 9, 23, 2⟩ = [0x45, 0x30, 0x23, 0x31, 0x02, 0x09, 0x23] :=
  ⟨((Write_frames sampleBus ⟨45, 30, 23, 31, 9, 23, 2⟩).2.2 (fun _ => rfl)).1,
    ((Write_frames sampleBus ⟨45, 30, 23, 31, 9, 23, 2⟩).2.2 (fun _ => rfl)).2,
    by decide⟩

/-- C11 fails on the code: on a transport that rejects every call, `Write` issues its seven
register writes, none of them is accepted (registers 0x03..0x09 keep their bytes), and `Write`
still returns true. -/
theorem Write_returns_true_on_rejected_writes :
    (Write rejectAllBus ⟨45, 30, 23, 31, 9, 23, 2⟩).2 = true ∧
      (Write rejectAllBus ⟨45, 30, 23, 31, 9, 23, 2⟩).1.log.length = 7 ∧
      (∀ n, rejectAllBus.accept n = false) ∧
      (∀ r, (Write rejectAllBus ⟨45, 30, 23, 31, 9, 23, 2⟩).1.regs r = rejectAllBus.regs r) := by
  rw [Write_eq]
  refine ⟨rfl, rfl, fun _ => rfl, ?_⟩
  intro r
  simp [rejectAllBus]

/-! ## Partial failure and frame theorems -/

/-- C18: for every initial register state, if the read-modify-write of register 0x0F and the
read of control-1 are carried out but the write of control-1 is rejected, `EnableInterrupt`
returns false, control-2 (register 0x01) is neither addressed, read nor written and keeps its
value, control-1 keeps its value, and bits 3, 4 and 5 of register 0x0F stay at the newly
written pattern 111. -/
theorem EnableInterrupt_control1_write_rejected (bus : Bus) (hwf : bus.wf)
    (h0 : bus.accept 0 = true) (h1 : bus.accept 1 = true) (h2 : bus.accept 2 = true)
    (h3 : bus.accept 3 = true) (h4 : bus.accept 4 = true) (h5 : bus.accept 5 = false) :
    (EnableInterrupt bus).2 = false ∧
      (EnableInterrupt bus).1.regs 0x01 = bus.regs 0x01 ∧
      (EnableInterrupt bus).1.regs 0x00 = bus.regs 0x00 ∧
      ((EnableInterrupt bus).1.regs 0x0F).testBit 3 = true ∧
      ((EnableInterrupt bus).1.regs 0x0F).testBit 4 = true ∧
      ((EnableInterrupt bus).1.regs 0x0F).testBit 5 = true ∧
      (EnableInterrupt bus).1.log = bus.log ++ [Xfer.write [0x0F] true, Xfer.read 1,
        Xfer.write [0x0F, bus.regs 0x0F ||| 0x38] false,
        Xfer.write [0x00] true, Xfer.read 1,
        Xfer.write [0x00, bus.regs 0x00 ||| 0x02] false] := by
  have hb0 := hwf 0x00
  have e0 := toU8_int_or (bus.regs 0x00) 0x02 hb0 (by decide)
  simp only [Nat.cast_ofNat] at e0
  simp only [EnableInterrupt, DisableClockout_accepted bus hwf h0 h1 h2]
  rw [ReadControl_accepted _ _ (by simpa using h3) (by simpa using h4)]
  simp only [show (0 : Nat) ≠ 15 by decide, if_false, Nat.mod_eq_of_lt hb0, e0]
  rw [WriteControl_rejected _ _ _ (by simpa using h5)]
  refine ⟨rfl, ?_, ?_, ?_, ?_, ?_, ?_⟩
  · simp
  · simp
  · exact or_testBit_set _ _ _ (by decide)
  · exact or_testBit_set _ _ _ (by decide)
  · exact or_testBit_set _ _ _ (by decide)
  · simp

/-- C18 at `sixthRejectedBus`, whose register 0x0F holds 0xD0 and whose sixth call (the write
of control-1) is the only one rejected. -/
theorem EnableInterrupt_control1_write_rejected_witness :
    sixthRejectedBus.regs 0x0F = 0xD0 ∧
      (EnableInterrupt sixthRejectedBus).2 = false ∧
      (EnableInterrupt sixthRejectedBus).1.regs 0x01 = sixthRejectedBus.regs 0x01 ∧
      (EnableInterrupt sixthRejectedBus).1.regs 0x00 = sixthRejectedBus.regs 0x00 ∧
      ((EnableInterrupt sixthRejectedBus).1.regs 0x0F).testBit 3 = true ∧
      ((EnableInterrupt sixthRejectedBus).1.regs 0x0F).testBit 4 = true ∧
      ((EnableInterrupt sixthRejectedBus).1.regs 0x0F).testBit 5 = true ∧
      (EnableInterrupt sixthRejectedBus).1.log = sixthRejectedBus.log ++
        [Xfer.write [0x0F] true, Xfer.read 1,
         Xfer.write [0x0F, sixthRejectedBus.regs 0x0F ||| 0x38] false,
         Xfer.write [0x00] true, Xfer.read 1,
         Xfer.write [0x00, sixthRejectedBus.regs 0x00 ||| 0x02] false] :=
  ⟨by decide,
    EnableInterrupt_control1_write_rejected sixthRejectedBus
      (fun _ => Nat.mod_lt _ (by decide)) rfl rfl rfl rfl rfl rfl⟩

/-- C19 as stated fails: with 0x07 in every register and every call carried out,
`DisableInterrupt` changes bit 2 of control-1 from 1 to 0, and bits 3 and 6 of control-2 from
0 to 1. -/
theorem DisableInterrupt_changes_other_bits :
    (allSevenBus.regs 0x00).testBit 2 = true ∧
      ((DisableInterrupt allSevenBus).1.regs 0x00).testBit 2 = false ∧
      (allSevenBus.regs 0x01).testBit 3 = false ∧
      ((DisableInterrupt allSevenBus).1.regs 0x01).testBit 3 = true ∧
      (allSevenBus.regs 0x01).testBit 6 = false ∧
      ((DisableInterrupt allSevenBus).1.regs 0x01).testBit 6 = true := by
  rw [DisableInterrupt_accepted allSevenBus allSevenBus_wf (fun _ => rfl)]
  decide

theorem testBit_or_mask_keep (x m i : Nat) (hm : m < 256)
    (h : i < 8 → m.testBit i = false) : (x ||| m).testBit i = x.testBit i := by
  apply or_testBit_keep
  by_cases h8 : i < 8
  · exact h h8
  · exact testBit_high m i hm (by omega)

theorem testBit_and_mask_keep (x m i : Nat) (hx : x < 256)
    (h : i < 8 → m.testBit i = true) : (x &&& m).testBit i = x.testBit i := by
  apply and_testBit_keep x m i hx
  by_cases h8 : i < 8
  · exact Or.inl (h h8)
  · exact Or.inr (by omega)

/-- C19 (amended): on a transport where every call is carried out, `EnableInterrupt` changes
only bit 1 of control-1, bits 0-2 of control-2 and bits 3-5 of register 0x0F; `DisableInterrupt`
changes in control-1 only bits 1 and 2 and in register 0x0F only bits 3-5; both leave every
register other than 0x00, 0x01 and 0x0F at its pre-call value. -/
theorem interrupt_routing_frame (bus : Bus) (hwf : bus.wf) (hacc : bus.allAccepted) :
    ((∀ i, i ≠ 1 →
        ((EnableInterrupt bus).1.regs 0x00).testBit i = (bus.regs 0x00).testBit i) ∧
      (∀ i, i ≠ 0 → i ≠ 1 → i ≠ 2 →
        ((EnableInterrupt bus).1.regs 0x01).testBit i = (bus.regs 0x01).testBit i) ∧
      (∀ i, i ≠ 3 → i ≠ 4 → i ≠ 5 →
        ((EnableInterrupt bus).1.regs 0x0F).testBit i = (bus.regs 0x0F).testBit i) ∧
      (∀ r, r ≠ 0x00 → r ≠ 0x01 → r ≠ 0x0F → (EnableInterrupt bus).1.regs r = bus.regs r)) ∧
    ((∀ i, i ≠ 1 → i ≠ 2 →
        ((DisableInterrupt bus).1.regs 0x00).testBit i = (bus.regs 0x00).testBit i) ∧
      (∀ i, i ≠ 3 → i ≠ 4 → i ≠ 5 →
        ((DisableInterrupt bus).1.regs 0x0F).testBit i = (bus.regs 0x0F).testBit i) ∧
      (∀ r, r ≠ 0x00 → r ≠ 0x01 → r ≠ 0x0F →
        (DisableInterrupt bus).1.regs r = bus.regs r)) := by
  rw [EnableInterrupt_accepted bus hwf hacc, DisableInterrupt_accepted bus hwf hacc]
  simp only [show (15 : Nat) ≠ 1 by decide, show (15 : Nat) ≠ 0 by decide,
    show (0 : Nat) ≠ 1 by decide, if_false, if_true]
  refine ⟨⟨?_, ?_, ?_, ?_⟩, ⟨?_, ?_, ?_⟩⟩
  · intro i h1
    apply testBit_or_mask_keep _ _ _ (by decide)
    intro h8
    interval_cases i <;> first | contradiction | decide
  · intro i h0 h1 h2
    apply testBit_or_mask_keep _ _ _ (by decide)
    intro h8
    interval_cases i <;> first | contradiction | decide
  · intro i h3 h4 h5
    apply testBit_or_mask_keep _ _ _ (by decide)
    intro h8
    interval_cases i <;> first | contradiction | decide
  · intro r h0 h1 h15
    simp only [if_neg h0, if_neg h1, if_neg h15]
  · intro i h1 h2
    apply testBit_and_mask_keep _ _ _ (hwf 0x00)
    intro h8
    interval_cases i <;> first | contradiction | decide
  · intro i h3 h4 h5
    apply testBit_and_mask_keep _ _ _ (hwf 0x0F)
    intro h8
    interval_cases i <;> first | contradiction | decide
  · intro r h0 h1 h15
    simp only [if_neg h0, if_neg h1, if_neg h15]

/-- C19 (amended) at `sampleBus`. -/
theorem interrupt_routing_frame_witness :
    ((∀ i, i ≠ 1 →
        ((EnableInterrupt sampleBus).1.regs 0x00).testBit i
          = (sampleBus.regs 0x00).testBit i) ∧
      (∀ i, i ≠ 0 → i ≠ 1 → i ≠ 2 →
        ((EnableInterrupt sampleBus).1.regs 0x01).testBit i
          = (sampleBus.regs 0x01).testBit i) ∧
      (∀ i, i ≠ 3 → i ≠ 4 → i ≠ 5 →
        ((EnableInterrupt sampleBus).1.regs 0x0F).testBit i
          = (sampleBus.regs 0x0F).testBit i) ∧
      (∀ r, r ≠ 0x00 → r ≠ 0x01 → r ≠ 0x0F →
        (EnableInterrupt sampleBus).1.regs r = sampleBus.regs r)) ∧
    ((∀ i, i ≠ 1 → i ≠ 2 →
        ((DisableInterrupt sampleBus).1.regs 0x00).testBit i
          = (sampleBus.regs 0x00).testBit i) ∧
      (∀ i, i ≠ 3 → i ≠ 4 → i ≠ 5 →
        ((DisableInterrupt sampleBus).1.regs 0x0F).testBit i
          = (sampleBus.regs 0x0F).testBit i) ∧
      (∀ r, r ≠ 0x00 → r ≠ 0x01 → r ≠ 0x0F →
        (DisableInterrupt sampleBus).1.regs r = sampleBus.regs r)) :=
  interrupt_routing_frame sampleBus sampleBus_wf (fun _ => rfl)

/-! ## The clockout-select field -/

theorem timerEnable_keeps_clockout : ∀ y : Nat, y < 256 →
    toU8 (int_and ((toU8 (int_or (y : Int) 0x02) : Nat) : Int) 0xFB) % 256 / 8 % 8
      = y / 8 % 8 := by
  decide!

theorem timerDisable_keeps_clockout : ∀ y : Nat, y < 256 →
    toU8 (int_and (y : Int) 0xF9) % 256 / 8 % 8 = y / 8 % 8 := by
  decide!

theorem Read_regs (bus : Bus) (time : pcf8523_time_t) : (Read bus time).1.regs = bus.regs := by
  cases h1 : bus.accept 1 <;> simp [Read, ReadRaw_eq, h1]

theorem ite_pair_fst (c : Prop) [Decidable c] (b : Bus) :
    (if c then (b, true) else (b, false)).1 = b := by
  split <;> rfl

theorem CheckAlarm_regs (bus : Bus) (status0 : Nat) :
    (CheckAlarm bus status0).1.regs = bus.regs := by
  cases h0 : bus.accept 0 <;> cases h1 : bus.accept 1 <;>
    simp [CheckAlarm, i2c_write_blocking, i2c_read_blocking, h0, h1, storeBytes, loadBytes,
      ite_pair_fst]

theorem SetAlarm_regs_other (bus : Bus) (alarm : pcf8523_alarm_t) (r : Nat)
    (hA : r ≠ 0x0A) (hB : r ≠ 0x0B) (hC : r ≠ 0x0C) (hD : r ≠ 0x0D) :
    (SetAlarm bus alarm).1.regs r = bus.regs r := by
  cases h0 : bus.accept 0 <;> cases h1 : bus.accept 1 <;> cases h2 : bus.accept 2 <;>
    cases h3 : bus.accept 3 <;>
    simp [SetAlarm_eq, i2c_write_frame_eq, h0, h1, h2, h3, PICO_ERROR_GENERIC, hA, hB, hC, hD]

theorem AcknowledgeAlarm_regs_other (bus : Bus) (r : Nat) (hr : r ≠ 0x01) :
    (AcknowledgeAlarm bus).1.regs r = bus.regs r := by
  cases h1 : bus.accept 1 <;> simp [AcknowledgeAlarm, ReadControl_eq, WriteControl_eq, h1, hr]

theorem AcknowledgeTimerA_regs_other (bus : Bus) (r : Nat) (hr : r ≠ 0x01) :
    (AcknowledgeTimerA bus).1.regs r = bus.regs r := by
  cases h1 : bus.accept 1 <;> simp [AcknowledgeTimerA, ReadControl_eq, WriteControl_eq, h1, hr]

theorem CheckCountdownTimerA_regs (bus : Bus) : (CheckCountdownTimerA bus).1.regs = bus.regs := by
  cases h1 : bus.accept 1 <;> simp [CheckCountdownTimerA, ReadControl_eq, h1]

theorem clockout_div (x : Nat) : x % 256 / 8 % 8 = x / 8 % 8 := by omega

theorem DisableTimerA_clockout (bus : Bus) (h : bus.accept 0 = true ∨ bus.accept 1 = false) :
    clockoutBits (DisableTimerA bus).1 = clockoutBits bus := by
  have hb := timerDisable_keeps_clockout (bus.regs 0x0F % 256) (Nat.mod_lt _ (by decide))
  rw [clockout_div (bus.regs 0x0F)] at hb
  push_cast at hb
  cases h1 : bus.accept 1
  · simp [DisableTimerA, ReadControl_eq, h1, clockoutBits]
  · have h0 : bus.accept 0 = true := by
      rcases h with h | h
      · exact h
      · rw [h1] at h
        cases h
    cases h2 : bus.accept 2 <;>
      simp [DisableTimerA, ReadControl_eq, WriteControl_eq, h0, h1, h2, clockoutBits, hb]

theorem EnableCountdownTimerA_clockout (bus : Bus)
    (h : bus.accept 0 = true ∨ bus.accept 1 = false) :
    clockoutBits (EnableCountdownTimerA bus).1 = clockoutBits bus := by
  have hb := timerEnable_keeps_clockout (bus.regs 0x0F % 256) (Nat.mod_lt _ (by decide))
  rw [clockout_div (bus.regs 0x0F)] at hb
  push_cast at hb
  cases h1 : bus.accept 1
  · simp [EnableCountdownTimerA, ReadControl_eq, h1, clockoutBits]
  · have h0 : bus.accept 0 = true := by
      rcases h with h | h
      · exact h
      · rw [h1] at h
        cases h
    cases h2 : bus.accept 2 <;>
      simp [EnableCountdownTimerA, ReadControl_eq, WriteControl_eq, h0, h1, h2, clockoutBits, hb]

theorem SetCountdownTimerASeconds_regs15 (bus : Bus) (seconds : Nat) :
    (SetCountdownTimerASeconds bus seconds).1.regs 0x0F
      = (EnableCountdownTimerA bus).1.regs 0x0F := by
  unfold SetCountdownTimerASeconds
  rcases hE : EnableCountdownTimerA bus with ⟨b1, _ | _⟩
  · rfl
  · simp only []
    have hw1 := WriteControl_regs b1 0x02 0x10 0x0F (by decide)
    rcases hW : WriteControl b1 0x02 0x10 with ⟨b2, _ | _⟩
    · rw [hW] at hw1
      exact hw1
    · rw [hW] at hw1
      simp only [DebugControl_regs]
      rw [WriteControl_regs b2 seconds 0x11 0x0F (by decide)]
      exact hw1

/-- C14 as stated fails: on a transport that rejects the address write of the register-0x0F
read but carries out the byte read and the write that follow, with the register pointer left
at control-1, `DisableTimerA` and `SetCountdownTimerASeconds` change the clockout-select bits of
register 0x0F from 010 to 100 (the bits of control-1). -/
theorem timer_calls_change_clockout_on_stale_pointer :
    clockoutBits firstRejectedBus = 2 ∧
      clockoutBits (DisableTimerA firstRejectedBus).1 = 4 ∧
      clockoutBits (SetCountdownTimerASeconds firstRejectedBus 30).1 = 4 := by
  refine ⟨by decide, ?_, ?_⟩
  · simp only [clockoutBits, DisableTimerA, ReadControl_eq, WriteControl_eq]
    decide
  · simp only [clockoutBits, SetCountdownTimerASeconds_regs15, EnableCountdownTimerA,
      ReadControl_eq, WriteControl_eq]
    decide

/-- C14 (amended): for every initial register state and every transport behaviour, each of
`Write`, `Read`, `SetAlarm`, `AcknowledgeAlarm`, `CheckAlarm`, `CheckCountdownTimerA` and
`AcknowledgeTimerA` leaves bits 3-5 of register 0x0F equal to their pre-call values; so do
`SetCountdownTimerASeconds` and `DisableTimerA` on every transport behaviour except one that
rejects the address write of their register-0x0F read and carries out the byte read that
follows it. -/
theorem clockoutBits_preserved (bus : Bus) (time : pcf8523_time_t) (alarm : pcf8523_alarm_t)
    (status0 seconds : Nat) :
    clockoutBits (Write bus time).1 = clockoutBits bus ∧
      clockoutBits (Read bus time).1 = clockoutBits bus ∧
      clockoutBits (SetAlarm bus alarm).1 = clockoutBits bus ∧
      clockoutBits (AcknowledgeAlarm bus).1 = clockoutBits bus ∧
      clockoutBits (CheckAlarm bus status0).1 = clockoutBits bus ∧
      clockoutBits (CheckCountdownTimerA bus).1 = clockoutBits bus ∧
      clockoutBits (AcknowledgeTimerA bus).1 = clockoutBits bus ∧
      (bus.accept 0 = true ∨ bus.accept 1 = false →
        clockoutBits (SetCountdownTimerASeconds bus seconds).1 = clockoutBits bus ∧
        clockoutBits (DisableTimerA bus).1 = clockoutBits bus) := by
  refine ⟨?_, ?_, ?_, ?_, ?_, ?_, ?_, ?_⟩
  · rw [Write_eq]
    simp [clockoutBits]
  · simp only [clockoutBits, Read_regs]
  · simp only [clockoutBits]
    rw [SetAlarm_regs_other bus alarm 0x0F (by decide) (by decide) (by decide) (by decide)]
  · simp only [clockoutBits]
    rw [AcknowledgeAlarm_regs_other bus 0x0F (by decide)]
  · simp only [clockoutBits, CheckAlarm_regs]
  · simp only [clockoutBits, CheckCountdownTimerA_regs]
  · simp only [clockoutBits]
    rw [AcknowledgeTimerA_regs_other bus 0x0F (by decide)]
  · intro h
    refine ⟨?_, DisableTimerA_clockout bus h⟩
    have hE := EnableCountdownTimerA_clockout bus h
    simp only [clockoutBits] at hE ⊢
    rw [SetCountdownTimerASeconds_regs15, hE]

/-- C14 (amended) at `sampleBus` (every call carried out) for the two timer calls, and at
`firstRejectedBus` (address write rejected, stale register pointer) for `AcknowledgeAlarm`. -/
theorem clockoutBits_preserved_witness :
    (clockoutBits (SetCountdownTimerASeconds sampleBus 30).1 = clockoutBits sampleBus ∧
      clockoutBits (DisableTimerA sampleBus).1 = clockoutBits sampleBus) ∧
    clockoutBits (AcknowledgeAlarm firstRejectedBus).1 = clockoutBits firstRejectedBus :=
  ⟨(clockoutBits_preserved sampleBus ⟨45, 30, 23, 31, 9, 23, 2⟩ ⟨0, 8, -1, 2⟩ 0 30).2.2.2.2.2.2.2
      (Or.inl rfl),
    (clockoutBits_preserved firstRejectedBus ⟨45, 30, 23, 31, 9, 23, 2⟩ ⟨0, 8, -1, 2⟩ 0
      30).2.2.2.1⟩

/-! ## Round trip over all signed 8-bit records -/

theorem decField70_encField_iff (v : Int) (h0 : -128 ≤ v) (h1 : v ≤ 127) :
    decField 0x70 (encField v) = v ↔ 0 ≤ v ∧ v ≤ 79 := by
  interval_cases v <;> decide

theorem decField30_encField_iff (v : Int) (h0 : -128 ≤ v) (h1 : v ≤ 127) :
    decField 0x30 (encField v) = v ↔ 0 ≤ v ∧ v ≤ 39 := by
  interval_cases v <;> decide

theorem decField10_encField_iff (v : Int) (h0 : -128 ≤ v) (h1 : v ≤ 127) :
    decField 0x10 (encField v) = v ↔ 0 ≤ v ∧ v ≤ 19 := by
  interval_cases v <;> decide

theorem decFieldF0_encField_iff (v : Int) (h0 : -128 ≤ v) (h1 : v ≤ 127) :
    decField 0xF0 (encField v) = v ↔ 0 ≤ v ∧ v ≤ 127 := by
  interval_cases v <;> decide

theorem decDotw_encDotw_iff (v : Int) (h0 : -128 ≤ v) (h1 : v ≤ 127) :
    toI8 (int_and ((toU8 (int_and v 0x07) : Nat) : Int) 0x07) = v ↔ 0 ≤ v ∧ v ≤ 7 := by
  interval_cases v <;> decide

/-- C20: for every time record over signed 8-bit fields, `RawToTime (TimeToRaw r)` equals `r`
if and only if second and minute are in 0..79, hour and day in 0..39, month in 0..19, year in
0..127 and dotw in 0..7; in particular a record with a negative field never survives the round
trip. -/
theorem RawToTime_TimeToRaw_iff (r : pcf8523_time_t) (hint8 : r.isInt8) :
    (RawToTime (TimeToRaw r) = r ↔
        (0 ≤ r.second ∧ r.second ≤ 79) ∧ (0 ≤ r.minute ∧ r.minute ≤ 79) ∧
        (0 ≤ r.hour ∧ r.hour ≤ 39) ∧ (0 ≤ r.day ∧ r.day ≤ 39) ∧
        (0 ≤ r.month ∧ r.month ≤ 19) ∧ (0 ≤ r.year ∧ r.year ≤ 127) ∧
        (0 ≤ r.dotw ∧ r.dotw ≤ 7)) ∧
      (r.second < 0 ∨ r.minute < 0 ∨ r.hour < 0 ∨ r.day < 0 ∨ r.month < 0 ∨ r.year < 0 ∨
          r.dotw < 0 → RawToTime (TimeToRaw r) ≠ r) := by
  obtain ⟨second, minute, hour, day, month, year, dotw⟩ := r
  obtain ⟨hs, hm, hh, hd, hmo, hy, hw⟩ := hint8
  simp only at hs hm hh hd hmo hy hw
  have key : RawToTime (TimeToRaw ⟨second, minute, hour, day, month, year, dotw⟩)
        = ⟨second, minute, hour, day, month, year, dotw⟩ ↔
      (0 ≤ second ∧ second ≤ 79) ∧ (0 ≤ minute ∧ minute ≤ 79) ∧
        (0 ≤ hour ∧ hour ≤ 39) ∧ (0 ≤ day ∧ day ≤ 39) ∧
        (0 ≤ month ∧ month ≤ 19) ∧ (0 ≤ year ∧ year ≤ 127) ∧ (0 ≤ dotw ∧ dotw ≤ 7) := by
    rw [TimeToRaw_eq, RawToTime_eq]
    simp only [pcf8523_time_t.mk.injEq]
    rw [decField70_encField_iff second hs.1 hs.2, decField70_encField_iff minute hm.1 hm.2,
      decField30_encField_iff hour hh.1 hh.2, decField30_encField_iff day hd.1 hd.2,
      decField10_encField_iff month hmo.1 hmo.2, decFieldF0_encField_iff year hy.1 hy.2,
      decDotw_encDotw_iff dotw hw.1 hw.2]
  refine ⟨key, ?_⟩
  intro hneg heq
  have hk := key.mp heq
  simp only at hneg
  omega

/-- C20 at the record second 79, minute 0, hour 39, day 39, month 19, year 127, dotw 7, the
largest record that survives the round trip. -/
theorem RawToTime_TimeToRaw_iff_witness :
    pcf8523_time_t.isInt8 ⟨79, 0, 39, 39, 19, 127, 7⟩ ∧
      RawToTime (TimeToRaw ⟨79, 0, 39, 39, 19, 127, 7⟩) = ⟨79, 0, 39, 39, 19, 127, 7⟩ :=
  ⟨⟨⟨by decide, by decide⟩, ⟨by decide, by decide⟩, ⟨by decide, by decide⟩,
      ⟨by decide, by decide⟩, ⟨by decide, by decide⟩, ⟨by decide, by decide⟩,
      ⟨by decide, by decide⟩⟩,
    (RawToTime_TimeToRaw_iff ⟨79, 0, 39, 39, 19, 127, 7⟩
      ⟨⟨by decide, by decide⟩, ⟨by decide, by decide⟩, ⟨by decide, by decide⟩,
        ⟨by decide, by decide⟩, ⟨by decide, by decide⟩, ⟨by decide, by decide⟩,
        ⟨by decide, by decide⟩⟩).1.mpr (by decide)⟩

end PCF8523
